import Mathlib

/-!
Verification of the frequency-alignment and feature-engineering pipeline of
`src/data_processing.py` (wealth-preservation study).

The pipeline is shallowly embedded over exact rational arithmetic:

* pandas `Series` with a `DatetimeIndex` become `List (YMD × Option ℚ)`
  (a `none` value is a missing observation / NaN);
* a pandas `DataFrame` becomes `Table`: a date index plus an ordered list of
  named columns, each column a `List (Option ℚ)`;
* float arithmetic is modelled exactly over `ℚ`;
* the two library functions whose values are not rational-representable,
  `numpy.log` (used only inside the asset-return columns) and the square root
  taken inside pandas' `Series.std`, are passed in as explicit function
  parameters `lg sq : ℚ → ℚ`; every theorem that depends on their values
  carries hypotheses pinning them to the mathematical log / square root at
  the finitely many points where the program applies them;
* fallible Python operations (column access raising `KeyError`, scipy's
  `CubicSpline` constructor raising `ValueError` on fewer than two points,
  calling `.date()` on the `NaT` returned by `.min()` of an empty
  `DatetimeIndex`) return `Except PyErr`.
-/

namespace WealthPres

/-- A calendar date (year, month, day), mirroring a `pandas.Timestamp` at
midnight UTC. -/
structure YMD where
  y : ℕ
  m : ℕ
  d : ℕ
deriving DecidableEq, Repr

/-- Lexicographic date comparison, `a ≤ b`. -/
def ymdLe (a b : YMD) : Bool :=
  a.y < b.y || (a.y = b.y && (a.m < b.m || (a.m = b.m && a.d ≤ b.d)))

/-- Gregorian leap-year test. -/
def isLeap (y : ℕ) : Bool :=
  y % 4 = 0 && (y % 100 ≠ 0 || y % 400 = 0)

/-- Number of days in a Gregorian calendar month. -/
def daysInMonth (y m : ℕ) : ℕ :=
  if m = 2 then (if isLeap y then 29 else 28)
  else if m = 4 || m = 6 || m = 9 || m = 11 then 30
  else 31

/-- Model of `pandas.offsets.MonthEnd(0)` addition: roll a date forward to
the last day of its own month (a date already at month end stays put). -/
def monthEnd0 (t : YMD) : YMD :=
  ⟨t.y, t.m, daysInMonth t.y t.m⟩

/-- A date is a month-end date. -/
def isMonthEnd (t : YMD) : Prop :=
  t.d = daysInMonth t.y t.m

instance (t : YMD) : Decidable (isMonthEnd t) := by
  unfold isMonthEnd; infer_instance

/-- Linear month counter of a date (`year * 12 + (month - 1)`). -/
def monthIdx (t : YMD) : ℕ := t.y * 12 + (t.m - 1)

/-- First day of the month with linear counter `k`. -/
def idxToMonthStart (k : ℕ) : YMD := ⟨k / 12, k % 12 + 1, 1⟩

/-- Last day of the month with linear counter `k`. -/
def idxToMonthEnd (k : ℕ) : YMD :=
  monthEnd0 (idxToMonthStart k)

/-- Model of `pandas.date_range(start, end, freq="MS")`: every first-of-month
date lying in the closed interval `[a, b]`. -/
def monthStartsBetween (a b : YMD) : List YMD :=
  let lo := if a.d ≤ 1 then monthIdx a else monthIdx a + 1
  (List.range' lo (monthIdx b + 1 - lo)).map idxToMonthStart

/-- Days between a civil date and 1970-01-01 (Gregorian, proleptic); this is
the standard era-based civil-calendar algorithm, so that
`86400 * daysFromCivil d` is exactly `pandas.Timestamp(d).timestamp()`. -/
def daysFromCivil (t : YMD) : ℤ :=
  let yy : ℕ := if t.m ≤ 2 then t.y - 1 else t.y
  let era : ℕ := yy / 400
  let yoe : ℕ := yy - era * 400
  let mp : ℕ := if t.m ≤ 2 then t.m + 9 else t.m - 3
  let doy : ℕ := (153 * mp + 2) / 5 + t.d - 1
  let doe : ℕ := yoe * 365 + yoe / 4 - yoe / 100 + doy
  (era * 146097 + doe : ℤ) - 719468

/-- Model of `Timestamp.timestamp()` as an integer: seconds since the Unix
epoch (dates are midnight UTC, so timestamps are whole seconds). -/
def tsInt (t : YMD) : ℤ := 86400 * daysFromCivil t

/-- Model of `Timestamp.timestamp()` as the rational fed to the spline. -/
def toTimestamp (t : YMD) : ℚ := (tsInt t : ℚ)

/-! ### Errors raised by the pipeline

The first three constructors are exceptions the Python code actually raises
(via pandas / scipy).  The remaining constructors are *modelled from the
spec*: §7 of the specification names a taxonomy `DataAccessError`,
`InsufficientDataError`, `SchemaError`, `AlignmentEmptyError`, but no such
exception class is defined anywhere in `src/`; they are included here only so
that claims mentioning them can be stated and compared with what the code
actually raises. -/

/-- Exceptions observable from the pipeline. -/
inductive PyErr where
  /-- pandas `KeyError`: a named column is absent from the frame. -/
  | keyError (col : String)
  /-- `ValueError` raised by `scipy.interpolate.CubicSpline` when given fewer
  than two data points. -/
  | valueErrorSpline
  /-- `ValueError` raised by calling `.date()` on the `NaT` that
  `DatetimeIndex.min()` returns for an empty index (the diagnostic-print
  lines run on an empty frame). -/
  | valueErrorNaTDate
  /-- Modelled from the spec (§7): `AlignmentEmptyError`; no such class
  exists in the source. -/
  | alignmentEmptyError
  /-- Modelled from the spec (§7): `InsufficientDataError`; no such class
  exists in the source. -/
  | insufficientDataError
  /-- Modelled from the spec (§7): `SchemaError`; no such class exists in
  the source. -/
  | schemaError (col : String)
deriving DecidableEq, Repr

/-! ### Cubic spline (scipy `CubicSpline`) in local Hermite form

`scipy.interpolate.CubicSpline(x, y)` computes knot derivatives `d_i` by
solving the not-a-knot tridiagonal system and then builds the piecewise
cubic in the local power basis with coefficients
`c3 = y_i`, `c2 = d_i`, `c1 = 3*Δ/h - (2*d_i + d_{i+1})`, scaled by the
interval length — i.e. exactly the cubic Hermite interpolant of the values
and those derivatives.  The derivative solve is kept abstract (a function
parameter `slopesFn`), because every property proved here (in particular the
anchor-reproduction property of claim C3) holds for *any* choice of knot
derivatives; evaluation is modelled faithfully, including scipy's use of the
first/last segment beyond the data range. -/

/-- One spline knot: abscissa (timestamp), value, derivative. -/
abbrev Knot := ℚ × ℚ × ℚ

/-- Cubic Hermite segment between knots `p` and `q`, evaluated at `x`
(local power basis at `p.1`, as in scipy's `PPoly`). -/
def hermiteSeg (p q : Knot) (x : ℚ) : ℚ :=
  let h := q.1 - p.1
  let t := x - p.1
  let del := q.2.1 - p.2.1
  let c2 := 3 * del / h ^ 2 - (2 * p.2.2 + q.2.2) / h
  let c3 := -2 * del / h ^ 3 + (p.2.2 + q.2.2) / h ^ 2
  p.2.1 + p.2.2 * t + c2 * t ^ 2 + c3 * t ^ 3

/-- Evaluate the piecewise cubic with knot list `ps` at `x`: the segment
`[x_j, x_{j+1})` containing `x` is used, the first segment for `x` below the
range and the last segment at and beyond the last knot, exactly as scipy's
`PPoly.__call__` with `searchsorted`. -/
def evalSpline : List Knot → ℚ → ℚ
  | [], _ => 0
  | [p], _ => p.2.1
  | [p, q], x => hermiteSeg p q x
  | p :: q :: r :: rest, x =>
      if x < q.1 then hermiteSeg p q x else evalSpline (q :: r :: rest) x

/-! ### Time series and frequency alignment (§ `align_all_series_to_monthly`) -/

/-- A date-indexed series: ordered (date, value) pairs, `none` = NaN. -/
abbrev Series := List (YMD × Option ℚ)

/-- Model of `Series.dropna()` for spline fitting: the (date, value) pairs
with a present value, in index order. -/
def cleanPairs (s : Series) : List (YMD × ℚ) :=
  s.filterMap (fun p => p.2.map (fun v => (p.1, v)))

/-- Model of `DatetimeIndex.min()` over a nonempty list of dates. -/
def dateMin (l : List YMD) : YMD :=
  l.foldl (fun a b => if ymdLe a b then a else b) (l.headD ⟨0, 1, 1⟩)

/-- Model of `DatetimeIndex.max()` over a nonempty list of dates. -/
def dateMax (l : List YMD) : YMD :=
  l.foldl (fun a b => if ymdLe a b then b else a) (l.headD ⟨0, 1, 1⟩)

/-- The knot list `CubicSpline` is built from inside
`interpolate_gdp_to_monthly`: timestamps of the clean anchors as abscissae,
their values, and the knot derivatives produced by scipy's not-a-knot solve
(kept abstract as `slopesFn`, applied to the abscissa and value lists). -/
def splineKnots (slopesFn : List ℚ → List ℚ → List ℚ)
    (clean : List (YMD × ℚ)) : List Knot :=
  List.zipWith (fun p d => (p.1, p.2, d))
    (List.zip (clean.map (fun p => toTimestamp p.1))
      (clean.map (fun p => p.2)))
    (slopesFn (clean.map (fun p => toTimestamp p.1))
      (clean.map (fun p => p.2)))

/-- The monthly series produced by a successful GDP interpolation: the
spline fitted through the clean anchors, evaluated at every first-of-month
date between the earliest and latest clean observation
(`pd.date_range(..., freq="MS")`). -/
def interpolatedGdp (slopesFn : List ℚ → List ℚ → List ℚ)
    (gdpQuarterly : Series) : List (YMD × ℚ) :=
  (monthStartsBetween
      (dateMin ((cleanPairs gdpQuarterly).map (fun p => p.1)))
      (dateMax ((cleanPairs gdpQuarterly).map (fun p => p.1)))).map
    (fun d =>
      (d, evalSpline (splineKnots slopesFn (cleanPairs gdpQuarterly))
        (toTimestamp d)))

/-- Model of `interpolate_gdp_to_monthly`: drop NaNs, fit the cubic spline
through the remaining (timestamp, value) anchors, and evaluate it monthly.
`CubicSpline` raises a `ValueError` when given fewer than two points. -/
def interpolateGdpToMonthly (slopesFn : List ℚ → List ℚ → List ℚ)
    (gdpQuarterly : Series) : Except PyErr (List (YMD × ℚ)) :=
  if (cleanPairs gdpQuarterly).length < 2 then .error .valueErrorSpline
  else .ok (interpolatedGdp slopesFn gdpQuarterly)

/-- Model of line 172 of the source: `gdp_monthly.index =
gdp_monthly.index + pd.offsets.MonthEnd(0)`. -/
def shiftIndexToMonthEnd (s : List (YMD × ℚ)) : List (YMD × ℚ) :=
  s.map (fun p => (monthEnd0 p.1, p.2))

/-- The last non-null value among the observations of month `k` of a series
(pandas `Resampler.last()` skips nulls inside the bin). -/
def lastObsInMonth (s : Series) (k : ℕ) : Option ℚ :=
  ((s.filter (fun p => monthIdx p.1 = k)).filterMap (fun p => p.2)).getLast?

/-- Model of `series.resample("ME").last()`: one month-end-indexed entry per
calendar month from the month of the first observation to the month of the
last, a month's value being its last non-null observation (`none` when the
month has no observation, i.e. the resampler fills interior gaps with NaN).
An empty series resamples to an empty series. -/
def resampleME (s : Series) : Series :=
  match s.head?, s.getLast? with
  | some first, some last =>
      let lo := monthIdx first.1
      let hi := monthIdx last.1
      (List.range' lo (hi + 1 - lo)).map
        (fun k => (idxToMonthEnd k, lastObsInMonth s k))
  | _, _ => []

/-- Dates present in a series' index. -/
def hasDate (s : Series) (d : YMD) : Bool :=
  s.any (fun p => p.1 = d)

/-- Value of a series at a date (first match), `none` when NaN or absent. -/
def valueAt (s : Series) (d : YMD) : Option ℚ :=
  ((s.find? (fun p => p.1 = d)).map (fun p => p.2)).join

/-- Model of `pd.concat([...], axis=1, join="inner")` on ascending,
duplicate-free date indexes: the rows are the dates present in *every*
series (in the order of the first series' index), each row carrying one
value slot per series. -/
def innerJoin (ss : List Series) : List (YMD × List (Option ℚ)) :=
  match ss with
  | [] => []
  | s₀ :: _ =>
      ((s₀.map (·.1)).filter (fun d => ss.all (fun s => hasDate s d))).map
        (fun d => (d, ss.map (fun s => valueAt s d)))

/-- `BTC_SERIES_START = "2014-01-01"`. -/
def btcSeriesStart : YMD := ⟨2014, 1, 1⟩

/-! ### Data frames -/

/-- A pandas `DataFrame`: a date index plus ordered named columns.  Columns
and index have equal length in every frame the pipeline builds. -/
structure Table where
  dates : List YMD
  cols : List (String × List (Option ℚ))
deriving DecidableEq, Repr

/-- Column-name list, in frame order. -/
def Table.names (t : Table) : List String := t.cols.map (·.1)

/-- Whether the frame has a column of the given name. -/
def Table.hasCol (t : Table) (k : String) : Bool := t.cols.any (fun c => c.1 = k)

/-- Model of `df[k]`: pandas raises `KeyError` for an absent column. -/
def Table.getCol (t : Table) (k : String) : Except PyErr (List (Option ℚ)) :=
  match t.cols.find? (fun c => c.1 = k) with
  | some c => .ok c.2
  | none => .error (.keyError k)

/-- Total column lookup (empty column when absent); used only to state
properties of frames whose columns are known to exist. -/
def Table.getColD (t : Table) (k : String) : List (Option ℚ) :=
  ((t.cols.find? (fun c => c.1 = k)).map (fun c => c.2)).getD []

/-- Helper for `df[k] = v`: replace the column in place if it exists,
otherwise append it at the end (pandas assignment semantics). -/
def setColList (cols : List (String × List (Option ℚ))) (k : String)
    (v : List (Option ℚ)) : List (String × List (Option ℚ)) :=
  match cols with
  | [] => [(k, v)]
  | c :: rest => if c.1 = k then (k, v) :: rest else c :: setColList rest k v

/-- Model of `df[k] = v`. -/
def Table.setCol (t : Table) (k : String) (v : List (Option ℚ)) : Table :=
  ⟨t.dates, setColList t.cols k v⟩

/-- Model of `df.drop(columns=ks)`: raises `KeyError` when one of the names
is absent (the model reports the first absent name), otherwise removes the
named columns and keeps the order of the rest. -/
def Table.dropCols (t : Table) (ks : List String) : Except PyErr Table :=
  match ks.find? (fun k => !t.hasCol k) with
  | some k => .error (.keyError k)
  | none => .ok ⟨t.dates, t.cols.filter (fun c => !(ks.contains c.1))⟩

/-- The row indices `df.dropna()` keeps: those at which every column has a
present value. -/
def dropnaKeep (t : Table) : List ℕ :=
  (List.range t.dates.length).filter
    (fun i => t.cols.all (fun c => (c.2.getD i none).isSome))

/-- Model of `df.dropna()`: keep exactly the rows in which every column has
a present value. -/
def Table.dropna (t : Table) : Table :=
  ⟨(dropnaKeep t).filterMap (fun i => t.dates[i]?),
   t.cols.map (fun c => (c.1, (dropnaKeep t).map (fun i => c.2.getD i none)))⟩

/-- Build the aligned frame out of inner-join rows. -/
def rowsToTable (names : List String) (rows : List (YMD × List (Option ℚ))) :
    Table :=
  ⟨rows.map (·.1),
   (List.range names.length).map
     (fun j => (names.getD j "", rows.map (fun r => r.2.getD j none)))⟩

/-- Column order of the aligned frame, i.e. the `pd.concat` order at lines
175–180 of the source. -/
def alignedNames : List String :=
  ["m2", "cpi", "gdp_monthly", "fed_funds_rate", "tips_real_yield_10y",
   "btc_price", "sp500_price", "gold_price"]

/-- The interpolated monthly GDP series after the month-end index shift of
line 172, as a `Series` (its values are always present — interpolation
yields plain floats). -/
def gdpAligned (gdpM : List (YMD × ℚ)) : Series :=
  (shiftIndexToMonthEnd gdpM).map (fun p => (p.1, some p.2))

/-- The eight post-resampling monthly series, in the `pd.concat` order of
lines 175–180. -/
def postResampled (gdpM : List (YMD × ℚ))
    (m2 cpi ff tips btc sp gold : Series) : List Series :=
  [resampleME m2, resampleME cpi, gdpAligned gdpM, resampleME ff,
   resampleME tips, resampleME btc, resampleME sp, resampleME gold]

/-- The pure row computation inside `align_all_series_to_monthly`: inner
join of the monthly series, clip to `BTC_SERIES_START`, drop rows with any
NaN. -/
def alignRows (ss : List Series) : List (YMD × List (Option ℚ)) :=
  ((innerJoin ss).filter (fun r => ymdLe btcSeriesStart r.1)).filter
    (fun r => r.2.all (fun v => v.isSome))

/-- Model of `align_all_series_to_monthly`: interpolate quarterly GDP to
monthly, resample everything else to month-end, shift the GDP index to
month-end, inner-join, clip to `BTC_SERIES_START`, drop NaN rows.  The
trailing diagnostic prints call `.date()` on `index.min()`, which raises a
`ValueError` when the resulting frame is empty. -/
def align_all_series_to_monthly (slopesFn : List ℚ → List ℚ → List ℚ)
    (m2 cpi gdp ff tips btc sp gold : Series) : Except PyErr Table :=
  match interpolateGdpToMonthly slopesFn gdp with
  | .error e => .error e
  | .ok gdpM =>
    let rows := alignRows (postResampled gdpM m2 cpi ff tips btc sp gold)
    if rows.isEmpty then .error .valueErrorNaTDate
    else .ok (rowsToTable alignedNames rows)

/-! ### Column arithmetic (exact ℚ model of the pandas/numpy operations) -/

/-- A column of length `n` described entrywise. -/
def buildCol (n : ℕ) (f : ℕ → Option ℚ) : List (Option ℚ) :=
  (List.range n).map f

/-- Model of `col.pct_change(periods=12)`: NaN for the first 12 entries,
then `x_i / x_{i-12} - 1`.  A zero base value gives pandas `±inf` or NaN,
none of which is a rational number; the model marks that entry missing, and
every theorem about a pct-change column assumes nonzero base values, so the
marking is never reached there. -/
def pctChange12 (xs : List (Option ℚ)) : List (Option ℚ) :=
  buildCol xs.length (fun i =>
    if i < 12 then none
    else match xs.getD (i - 12) none, xs.getD i none with
      | some a, some b => if a = 0 then none else some (b / a - 1)
      | _, _ => none)

/-- Scalar multiplication of a column (NaN-propagating). -/
def mulC (c : ℚ) (xs : List (Option ℚ)) : List (Option ℚ) :=
  xs.map (fun o => o.map (fun a => a * c))

/-- Elementwise difference of two same-indexed columns. -/
def osub (xs ys : List (Option ℚ)) : List (Option ℚ) :=
  buildCol xs.length (fun i =>
    match xs.getD i none, ys.getD i none with
    | some a, some b => some (a - b)
    | _, _ => none)

/-- Elementwise quotient of two same-indexed columns.  Pandas float
division by zero gives `±inf` or NaN, none of which is a rational number;
the model marks such an entry missing, and every theorem about a quotient
column assumes a nonzero denominator column, so the marking is never
reached there. -/
def odiv (xs ys : List (Option ℚ)) : List (Option ℚ) :=
  buildCol xs.length (fun i =>
    match xs.getD i none, ys.getD i none with
    | some a, some b => if b = 0 then none else some (a / b)
    | _, _ => none)

/-- Model of `col.shift(1)`. -/
def shift1 (xs : List (Option ℚ)) : List (Option ℚ) :=
  buildCol xs.length (fun i => if i = 0 then none else xs.getD (i - 1) none)

/-- Elementwise application of a total function (NaN-propagating); used for
the affine rescalings of stage 3, which are total on floats. -/
def omap (f : ℚ → ℚ) (xs : List (Option ℚ)) : List (Option ℚ) :=
  xs.map (fun o => o.map f)

/-- Elementwise `np.log` via the abstract `lg : ℚ → ℚ`, faithful to numpy
on the reals: on a nonpositive argument `np.log` returns NaN (negative) or
`-inf` (zero), neither a rational number, so the entry is marked missing;
on a positive argument the value is the real `log`, represented by `lg`.
Every theorem about a log column assumes positive arguments, so the
missing marking is never reached there. -/
def ologPos (lg : ℚ → ℚ) (xs : List (Option ℚ)) : List (Option ℚ) :=
  xs.map (fun o =>
    match o with
    | some a => if a ≤ 0 then none else some (lg a)
    | none => none)

/-- Mean of a plain rational list. -/
def meanQ (l : List ℚ) : ℚ := l.sum / l.length

/-- Sample variance (`ddof = 1`, the pandas default) of a rational list. -/
def varQ (l : List ℚ) : ℚ :=
  (l.map (fun x => (x - meanQ l) ^ 2)).sum / ((l.length : ℚ) - 1)

/-- Model of `col.mean()` (skipna): NaN for an all-NaN column. -/
def colMean (xs : List (Option ℚ)) : Option ℚ :=
  if (xs.filterMap id).length = 0 then none
  else some (meanQ (xs.filterMap id))

/-- Model of `col.std()` (skipna, `ddof = 1`): NaN with fewer than two
present values; otherwise the square root — via the abstract `sq` — of the
sample variance of the present values. -/
def colStd (sq : ℚ → ℚ) (xs : List (Option ℚ)) : Option ℚ :=
  if (xs.filterMap id).length ≤ 1 then none
  else some (sq (varQ (xs.filterMap id)))

/-- Model of `(col - col.mean()) / col.std()` (NaN-propagating).  With a
zero standard deviation every present value equals the mean and pandas
computes `0.0/0.0 = NaN`, so the whole z column is NaN; the model returns a
missing entry whenever the standard deviation is zero. -/
def zscoreCol (sq : ℚ → ℚ) (xs : List (Option ℚ)) : List (Option ℚ) :=
  xs.map (fun o =>
    match o, colMean xs, colStd sq xs with
    | some a, some mm, some ss =>
        if ss = 0 then none else some ((a - mm) / ss)
    | _, _, _ => none)

/-- Model of `df[cols].mean(axis=1)` (skipna): per row, the mean of the
present values among the given columns. -/
def rowMeanAcross (cs : List (List (Option ℚ))) (n : ℕ) : List (Option ℚ) :=
  buildCol n (fun i =>
    if (cs.filterMap (fun c => c.getD i none)).length = 0 then none
    else some (meanQ (cs.filterMap (fun c => c.getD i none))))

/-! ### Feature-engineering stages (§4.3; `data_processing.py` lines 197–319)

Each Python stage mutates the frame it is handed; the pure model returns the
frame value after the stage.  Column reads happen in the source's order, so
an absent column surfaces as the `KeyError` pandas raises at the first
failing `df[...]` access. -/

/-- `DEBASEMENT_INDICATOR_COLUMNS` (source lines 31–36). -/
def debasementIndicatorColumns : List String :=
  ["m2_yoy_pct", "cpi_yoy_pct", "real_m2_growth", "m2_to_gdp"]

/-- The in-place column assignments of stage 1 (the part of
`compute_debasement_indicators` that mutates the frame object before the
`drop`). -/
def debasementAssigns (t : Table) : Except PyErr Table := do
  let m2 ← t.getCol "m2"
  let t := t.setCol "m2_yoy_pct" (mulC 100 (pctChange12 m2))
  let cpi ← t.getCol "cpi"
  let t := t.setCol "cpi_yoy_pct" (mulC 100 (pctChange12 cpi))
  let a ← t.getCol "m2_yoy_pct"
  let b ← t.getCol "cpi_yoy_pct"
  let t := t.setCol "real_m2_growth" (osub a b)
  let m2b ← t.getCol "m2"
  let g ← t.getCol "gdp_monthly"
  .ok (t.setCol "m2_to_gdp" (odiv m2b g))

/-- Stage 1, `compute_debasement_indicators`: the four indicators, then drop
the raw level columns `m2`, `cpi`, `gdp_monthly` (`df.drop` returns a new
frame). -/
def compute_debasement_indicators (t : Table) : Except PyErr Table := do
  let u ← debasementAssigns t
  u.dropCols ["m2", "cpi", "gdp_monthly"]

/-- The in-place column assignments of stage 2. -/
def assetReturnsAssigns (lg : ℚ → ℚ) (t : Table) : Except PyErr Table := do
  let b ← t.getCol "btc_price"
  let t := t.setCol "btc_return_monthly" (ologPos lg (odiv b (shift1 b)))
  let s ← t.getCol "sp500_price"
  let t := t.setCol "sp500_return_monthly" (ologPos lg (odiv s (shift1 s)))
  let g ← t.getCol "gold_price"
  .ok (t.setCol "gold_return_monthly" (ologPos lg (odiv g (shift1 g))))

/-- Stage 2, `compute_asset_returns`: monthly log returns
`np.log(price / price.shift(1))` for the three assets, then drop the price
columns.  `lg` models `np.log`. -/
def compute_asset_returns (lg : ℚ → ℚ) (t : Table) : Except PyErr Table := do
  let u ← assetReturnsAssigns lg t
  u.dropCols ["btc_price", "sp500_price", "gold_price"]

/-- Stage 3, `compute_cash_real_return`:
`(fed_funds_rate - cpi_yoy_pct) / 12 / 100`. -/
def compute_cash_real_return (t : Table) : Except PyErr Table := do
  let f ← t.getCol "fed_funds_rate"
  let c ← t.getCol "cpi_yoy_pct"
  .ok (t.setCol "cash_real_return_monthly"
    (omap (fun a => a / 12 / 100) (osub f c)))

/-- Stage 4, `compute_spread_features`: each asset's return minus the cash
real return, in the source's btc/gold/sp500 order. -/
def compute_spread_features (t : Table) : Except PyErr Table := do
  let rb ← t.getCol "btc_return_monthly"
  let c₁ ← t.getCol "cash_real_return_monthly"
  let t := t.setCol "btc_vs_cash_real_spread" (osub rb c₁)
  let rg ← t.getCol "gold_return_monthly"
  let c₂ ← t.getCol "cash_real_return_monthly"
  let t := t.setCol "gold_vs_cash_real_spread" (osub rg c₂)
  let rs ← t.getCol "sp500_return_monthly"
  let c₃ ← t.getCol "cash_real_return_monthly"
  .ok (t.setCol "sp500_vs_cash_real_spread" (osub rs c₃))

/-- Stage 5, `standardize_debasement_indicators`: for each of the four
indicator columns, add `z_<name> = (col - col.mean()) / col.std()`, the
moments taken over the whole current frame (skipna).  `sq` models the square
root inside `Series.std`. -/
def standardize_debasement_indicators (sq : ℚ → ℚ) (t : Table) :
    Except PyErr Table := do
  let c₁ ← t.getCol "m2_yoy_pct"
  let t := t.setCol "z_m2_yoy_pct" (zscoreCol sq c₁)
  let c₂ ← t.getCol "cpi_yoy_pct"
  let t := t.setCol "z_cpi_yoy_pct" (zscoreCol sq c₂)
  let c₃ ← t.getCol "real_m2_growth"
  let t := t.setCol "z_real_m2_growth" (zscoreCol sq c₃)
  let c₄ ← t.getCol "m2_to_gdp"
  .ok (t.setCol "z_m2_to_gdp" (zscoreCol sq c₄))

/-- Stage 6, `compute_zscore_composite_debasement_score`: per-row mean of
the four z-score columns (skipna, as `df[cols].mean(axis=1)`). -/
def compute_zscore_composite_debasement_score (t : Table) :
    Except PyErr Table := do
  let z₁ ← t.getCol "z_m2_yoy_pct"
  let z₂ ← t.getCol "z_cpi_yoy_pct"
  let z₃ ← t.getCol "z_real_m2_growth"
  let z₄ ← t.getCol "z_m2_to_gdp"
  .ok (t.setCol "zscore_composite_debasement_score"
    (rowMeanAcross [z₁, z₂, z₃, z₄] t.dates.length))

/-- The six feature stages of `build_analysis_dataframe`, in order,
before the final `dropna()`. -/
def stagePipeline (lg sq : ℚ → ℚ) (t : Table) : Except PyErr Table := do
  let t ← compute_debasement_indicators t
  let t ← compute_asset_returns lg t
  let t ← compute_cash_real_return t
  let t ← compute_spread_features t
  let t ← standardize_debasement_indicators sq t
  compute_zscore_composite_debasement_score t

/-- Model of `build_analysis_dataframe`: the six stages on a copy of the
aligned frame, then `dropna()`; the closing diagnostic prints call
`.date()` on `index.min()`, a `ValueError` when every row was dropped. -/
def build_analysis_dataframe (lg sq : ℚ → ℚ) (aligned : Table) :
    Except PyErr Table := do
  let t ← stagePipeline lg sq aligned
  let t := t.dropna
  if t.dates.isEmpty then .error .valueErrorNaTDate else .ok t

/-! ### Valid aligned frames

`align_all_series_to_monthly` (claim C2) guarantees a rectangular NaN-free
frame with the eight columns of `alignedNames`; such frames are described by
eight plain rational columns of equal length. -/

/-- A valid aligned monthly frame: eight fully-present columns. -/
def mkAligned (ds : List YMD) (m2 cpi gdp ff tips btc sp gold : List ℚ) :
    Table :=
  ⟨ds,
   [("m2", m2.map some), ("cpi", cpi.map some),
    ("gdp_monthly", gdp.map some), ("fed_funds_rate", ff.map some),
    ("tips_real_yield_10y", tips.map some), ("btc_price", btc.map some),
    ("sp500_price", sp.map some), ("gold_price", gold.map some)]⟩

/-! ### Canonical (entrywise) forms of the engineered columns

Each column the pipeline builds from a NaN-free aligned frame is, as a
list, a `buildCol` over explicit entry functions; these forms drive the
`dropna` mask analysis and the standardization algebra for claims C1 and
C5. -/

/-- The year-over-year percent change at row `i ≥ 12`. -/
def yoyAt (xs : List ℚ) (i : ℕ) : ℚ :=
  (xs.getD i 0 / xs.getD (i - 12) 0 - 1) * 100

/-- The monthly log return at row `i ≥ 1` (`lg` models `np.log`). -/
def retAt (lg : ℚ → ℚ) (xs : List ℚ) (i : ℕ) : ℚ :=
  lg (xs.getD i 0 / xs.getD (i - 1) 0)

/-- The monthly cash real return at row `i ≥ 12`. -/
def cashAt (ff cpi : List ℚ) (i : ℕ) : ℚ :=
  (ff.getD i 0 - yoyAt cpi i) / 12 / 100

/-- The YoY column of a NaN-free level column. -/
def y1col (xs : List ℚ) : List (Option ℚ) :=
  mulC 100 (pctChange12 (xs.map some))

/-- The real-money-growth column. -/
def y3col (a b : List ℚ) : List (Option ℚ) := osub (y1col a) (y1col b)

/-- The money-to-output ratio column. -/
def y4col (a g : List ℚ) : List (Option ℚ) :=
  odiv (a.map some) (g.map some)

/-- A monthly log-return column. -/
def retcol (lg : ℚ → ℚ) (p : List ℚ) : List (Option ℚ) :=
  ologPos lg (odiv (p.map some) (shift1 (p.map some)))

/-- The cash-real-return column. -/
def cashcol (ff cpi : List ℚ) : List (Option ℚ) :=
  omap (fun a => a / 12 / 100) (osub (ff.map some) (y1col cpi))

/-- A spread column. -/
def spreadcol (lg : ℚ → ℚ) (p ff cpi : List ℚ) : List (Option ℚ) :=
  osub (retcol lg p) (cashcol ff cpi)

/-- The non-missing YoY values (rows 12 and later) of a level column. -/
def yoyVals (xs : List ℚ) : List ℚ :=
  (List.range' 12 (xs.length - 12)).map (yoyAt xs)

/-- The non-missing real-money-growth values (rows 12 and later). -/
def realVals (a b : List ℚ) : List ℚ :=
  (List.range' 12 (a.length - 12)).map (fun i => yoyAt a i - yoyAt b i)

/-- The ratio values over all rows. -/
def ratioVals (a g : List ℚ) : List ℚ :=
  (List.range' 0 a.length).map (fun i => a.getD i 0 / g.getD i 0)

/-- The frame produced by the six feature stages on a valid aligned frame,
before the final `dropna()` (column order as produced by the pandas
assignments and drops). -/
def preDrop (lg sq : ℚ → ℚ) (ds : List YMD)
    (m2 cpi gdp ff tips btc sp gold : List ℚ) : Table :=
  ⟨ds,
   [("fed_funds_rate", ff.map some),
    ("tips_real_yield_10y", tips.map some),
    ("m2_yoy_pct", y1col m2),
    ("cpi_yoy_pct", y1col cpi),
    ("real_m2_growth", y3col m2 cpi),
    ("m2_to_gdp", y4col m2 gdp),
    ("btc_return_monthly", retcol lg btc),
    ("sp500_return_monthly", retcol lg sp),
    ("gold_return_monthly", retcol lg gold),
    ("cash_real_return_monthly", cashcol ff cpi),
    ("btc_vs_cash_real_spread", spreadcol lg btc ff cpi),
    ("gold_vs_cash_real_spread", spreadcol lg gold ff cpi),
    ("sp500_vs_cash_real_spread", spreadcol lg sp ff cpi),
    ("z_m2_yoy_pct", zscoreCol sq (y1col m2)),
    ("z_cpi_yoy_pct", zscoreCol sq (y1col cpi)),
    ("z_real_m2_growth", zscoreCol sq (y3col m2 cpi)),
    ("z_m2_to_gdp", zscoreCol sq (y4col m2 gdp)),
    ("zscore_composite_debasement_score",
      rowMeanAcross [zscoreCol sq (y1col m2), zscoreCol sq (y1col cpi),
        zscoreCol sq (y3col m2 cpi), zscoreCol sq (y4col m2 gdp)]
        ds.length)]⟩

/-- The column names of the final analysis frame, in output order. -/
def analysisNames : List String :=
  ["fed_funds_rate", "tips_real_yield_10y", "m2_yoy_pct", "cpi_yoy_pct",
   "real_m2_growth", "m2_to_gdp", "btc_return_monthly",
   "sp500_return_monthly", "gold_return_monthly",
   "cash_real_return_monthly", "btc_vs_cash_real_spread",
   "gold_vs_cash_real_spread", "sp500_vs_cash_real_spread",
   "z_m2_yoy_pct", "z_cpi_yoy_pct", "z_real_m2_growth", "z_m2_to_gdp",
   "zscore_composite_debasement_score"]

/-- The conditions under which the real feature-engineering pipeline
produces a clean persisted frame, mirrored exactly by the model: nonzero
pct-change bases and ratio denominators (pandas float division would give
`±inf`), positive asset prices (`np.log` would give NaN or `-inf`), and a
nonzero standard deviation for each of the four debasement indicators over
its standardization window (a zero standard deviation makes the whole z
column `0.0/0.0 = NaN`, so the final `dropna()` would empty the frame and
the diagnostic prints would raise). -/
abbrev validForAnalysis (sq : ℚ → ℚ) (m2 cpi gdp btc sp gold : List ℚ) :
    Prop :=
  (∀ j < m2.length, m2.getD j 0 ≠ 0) ∧
  (∀ j < cpi.length, cpi.getD j 0 ≠ 0) ∧
  (∀ j < gdp.length, gdp.getD j 0 ≠ 0) ∧
  (∀ j < btc.length, 0 < btc.getD j 0) ∧
  (∀ j < sp.length, 0 < sp.getD j 0) ∧
  (∀ j < gold.length, 0 < gold.getD j 0) ∧
  sq (varQ (yoyVals m2)) ≠ 0 ∧
  sq (varQ (yoyVals cpi)) ≠ 0 ∧
  sq (varQ (realVals m2 cpi)) ≠ 0 ∧
  sq (varQ (ratioVals m2 gdp)) ≠ 0

/-- The frame after stage 1 on a valid aligned frame. -/
def afterStage1 (ds : List YMD) (m2 cpi gdp ff tips btc sp gold : List ℚ) :
    Table :=
  ⟨ds,
   [("fed_funds_rate", ff.map some),
    ("tips_real_yield_10y", tips.map some),
    ("btc_price", btc.map some),
    ("sp500_price", sp.map some),
    ("gold_price", gold.map some),
    ("m2_yoy_pct", y1col m2),
    ("cpi_yoy_pct", y1col cpi),
    ("real_m2_growth", y3col m2 cpi),
    ("m2_to_gdp", y4col m2 gdp)]⟩

/-- The frame after stage 2. -/
def afterStage2 (lg : ℚ → ℚ) (ds : List YMD)
    (m2 cpi gdp ff tips btc sp gold : List ℚ) : Table :=
  ⟨ds,
   [("fed_funds_rate", ff.map some),
    ("tips_real_yield_10y", tips.map some),
    ("m2_yoy_pct", y1col m2),
    ("cpi_yoy_pct", y1col cpi),
    ("real_m2_growth", y3col m2 cpi),
    ("m2_to_gdp", y4col m2 gdp),
    ("btc_return_monthly", retcol lg btc),
    ("sp500_return_monthly", retcol lg sp),
    ("gold_return_monthly", retcol lg gold)]⟩

/-- The frame after stage 4 (stage 3 adds only the cash column). -/
def afterStage4 (lg : ℚ → ℚ) (ds : List YMD)
    (m2 cpi gdp ff tips btc sp gold : List ℚ) : Table :=
  ⟨ds,
   [("fed_funds_rate", ff.map some),
    ("tips_real_yield_10y", tips.map some),
    ("m2_yoy_pct", y1col m2),
    ("cpi_yoy_pct", y1col cpi),
    ("real_m2_growth", y3col m2 cpi),
    ("m2_to_gdp", y4col m2 gdp),
    ("btc_return_monthly", retcol lg btc),
    ("sp500_return_monthly", retcol lg sp),
    ("gold_return_monthly", retcol lg gold),
    ("cash_real_return_monthly", cashcol ff cpi),
    ("btc_vs_cash_real_spread", spreadcol lg btc ff cpi),
    ("gold_vs_cash_real_spread", spreadcol lg gold ff cpi),
    ("sp500_vs_cash_real_spread", spreadcol lg sp ff cpi)]⟩

/-- Concrete stand-in for scipy's not-a-knot derivative solve (one
derivative per knot); used only to exercise theorems at concrete inputs. -/
def c3slopes : List ℚ → List ℚ → List ℚ := fun xs _ => xs.map (fun _ => 0)

/-- A concrete quarterly GDP series with three anchors. -/
def c3gdp : Series :=
  [(⟨2014, 1, 1⟩, some 10), (⟨2014, 4, 1⟩, some 16), (⟨2014, 7, 1⟩, some 4)]

/-- A concrete two-column frame exercising C4. -/
def c4table : Table :=
  ⟨[⟨2014, 1, 31⟩], [("fed_funds_rate", [some 13]), ("cpi_yoy_pct", [some 1])]⟩

/-- A concrete quarterly series with a missing middle observation. -/
def c10gdp : Series :=
  [(⟨2014, 1, 1⟩, some 10), (⟨2014, 2, 15⟩, none), (⟨2014, 4, 1⟩, some 16)]

/-- Concrete input series for exercising a successful alignment: monthly
observations for January–April 2014 (and two quarterly GDP anchors). -/
def w2gdp : Series := [(⟨2014, 1, 1⟩, some 1), (⟨2014, 4, 1⟩, some 2)]

def w2m2 : Series :=
  [(⟨2014, 1, 15⟩, some 10), (⟨2014, 2, 15⟩, some 11),
   (⟨2014, 3, 15⟩, some 12), (⟨2014, 4, 15⟩, some 13)]

def w2cpi : Series :=
  [(⟨2014, 1, 15⟩, some 5), (⟨2014, 2, 15⟩, some 6),
   (⟨2014, 3, 15⟩, some 7), (⟨2014, 4, 15⟩, some 8)]

def w2daily : Series :=
  [(⟨2014, 1, 10⟩, some 1), (⟨2014, 2, 10⟩, some 2),
   (⟨2014, 3, 10⟩, some 3), (⟨2014, 4, 10⟩, some 4)]

/-- A daily series entirely outside the 2014 range of the other inputs. -/
def c6btc : Series := [(⟨2020, 1, 10⟩, some 1), (⟨2020, 2, 10⟩, some 2)]

/-- A quarterly series with a single observation (too few for a spline). -/
def c7gdp : Series := [(⟨2014, 1, 1⟩, some 5)]

/-! ### Claim C9: `build_analysis_dataframe` leaves its argument unchanged

Python mutates frames in place (`df[...] = ...`), while `df.copy()`,
`df.drop(...)` and `df.dropna()` allocate new frames, and assignments to the
local name `analysis_df` merely rebind it.  To state the frame effect this
claim is about, the stages are replayed against an explicit object heap:
`Heap` is the list of allocated frames, a reference is an index into it,
in-place mutation writes through the reference, and `copy`/`drop`/`dropna`
allocate at the end.  The caller's `aligned_df` lives at reference 0. -/

abbrev Heap : Type := List Table

def readT (h : Heap) (r : ℕ) : Table := List.getD h r ⟨[], []⟩

def writeT (h : Heap) (r : ℕ) (t : Table) : Heap := List.set h r t

/-- Exception-propagating sequencing used by the heap replay (Python's
behaviour: an exception aborts the whole call). -/
def okThen {α : Type} (x : Except PyErr α)
    (f : α → Except PyErr (Heap × ℕ)) : Except PyErr (Heap × ℕ) :=
  match x with
  | .error e => .error e
  | .ok a => f a

/-- Stage 1 on the heap: the column assignments mutate the frame at `r`;
the `drop` allocates a new frame, whose reference is returned. -/
def stage1Heap (h : Heap) (r : ℕ) : Except PyErr (Heap × ℕ) :=
  okThen (debasementAssigns (readT h r)) (fun t₁ =>
    okThen (t₁.dropCols ["m2", "cpi", "gdp_monthly"]) (fun t₂ =>
      .ok (writeT h r t₁ ++ [t₂], (writeT h r t₁).length)))

/-- Stage 2 on the heap (assignments in place, `drop` allocates). -/
def stage2Heap (lg : ℚ → ℚ) (h : Heap) (r : ℕ) : Except PyErr (Heap × ℕ) :=
  okThen (assetReturnsAssigns lg (readT h r)) (fun t₁ =>
    okThen (t₁.dropCols ["btc_price", "sp500_price", "gold_price"]) (fun t₂ =>
      .ok (writeT h r t₁ ++ [t₂], (writeT h r t₁).length)))

/-- Stages 3–6 mutate in place and return the same reference. -/
def inPlaceStageHeap (stage : Table → Except PyErr Table) (h : Heap)
    (r : ℕ) : Except PyErr (Heap × ℕ) :=
  okThen (stage (readT h r)) (fun t₁ => .ok (writeT h r t₁, r))

/-- `build_analysis_dataframe` on the heap: `aligned_df.copy()` allocates a
fresh frame, the six stages run against the copy's reference (stages 1–2
returning the references of their `drop` results), and the final `dropna()`
allocates the returned frame. -/
def build_analysis_dataframe_heap (lg sq : ℚ → ℚ) (h : Heap) (r : ℕ) :
    Except PyErr (Heap × ℕ) :=
  okThen (stage1Heap (h ++ [readT h r]) h.length) (fun p₁ =>
  okThen (stage2Heap lg p₁.1 p₁.2) (fun p₂ =>
  okThen (inPlaceStageHeap compute_cash_real_return p₂.1 p₂.2) (fun p₃ =>
  okThen (inPlaceStageHeap compute_spread_features p₃.1 p₃.2) (fun p₄ =>
  okThen (inPlaceStageHeap (standardize_debasement_indicators sq) p₄.1
      p₄.2) (fun p₅ =>
  okThen (inPlaceStageHeap compute_zscore_composite_debasement_score p₅.1
      p₅.2) (fun p₆ =>
    if ((readT p₆.1 p₆.2).dropna).dates.isEmpty then
      .error .valueErrorNaTDate
    else .ok (p₆.1 ++ [(readT p₆.1 p₆.2).dropna], p₆.1.length)))))))

/-- Concrete 14-row aligned frame on which the pipeline succeeds; the `lg`
and `sq` parameters are only ever applied at ratio 1 (log 0) and at the
nondegenerate variances, whose values do not affect the heap shape. -/
def c9table : Table :=
  mkAligned ((List.range' 0 14).map idxToMonthEnd)
    (List.replicate 12 100 ++ [100, 102])
    (List.replicate 12 100 ++ [100, 101])
    (List.replicate 14 1) (List.replicate 14 1) (List.replicate 14 1)
    (List.replicate 14 1) (List.replicate 14 1) (List.replicate 14 1)

def c9log : ℚ → ℚ := fun _ => 0

def c9sqrt : ℚ → ℚ := fun _ => 1

/-! ### Claims C1 and C5: the persisted output's columns and the z-score
moments

The pipeline keeps `fed_funds_rate` and `tips_real_yield_10y` — raw level
columns that are never dropped (`build_analysis_dataframe` drops only the
five price/level columns listed at line 344 of `data_processing.py`), so
claim C1's "no raw rate or yield level column survives" fails.  The four
z-scores are standardized over the frame *before* the final `dropna()`;
the three lookback indicators are standardized exactly over the rows that
survive, so their persisted mean/std are 0 and 1, but `m2_to_gdp` has no
lookback, is standardized over every row, and its persisted mean is in
general nonzero — claim C5 fails for `z_m2_to_gdp`. -/

def c5log : ℚ → ℚ := fun _ => 0

/-- An abstract square root that is exact at the two variances (4 and 1)
arising in the concrete 15-row frame below. -/
def c5sqrt : ℚ → ℚ := fun q => if q = 4 then 2 else if q = 1 then 1 else 0

def c5dates : List YMD := (List.range' 0 15).map idxToMonthEnd

def c5m2 : List ℚ := List.replicate 12 100 ++ [100, 102, 104]

def c5cpi : List ℚ := List.replicate 12 100 ++ [100, 101, 102]

def c5gdp : List ℚ :=
  List.replicate 7 (100 / 6) ++ List.replicate 5 25 ++ [25, 102 / 4, 104 / 5]

def c5ones : List ℚ := List.replicate 15 1

/-- A concrete 15-row valid aligned frame on which `m2_to_gdp` takes the
values 6 (seven times), 4 (seven times), 5 — so its full-table mean differs
from its mean over the three persisted rows. -/
def c5table : Table :=
  mkAligned c5dates c5m2 c5cpi c5gdp c5ones c5ones c5ones c5ones c5ones

example : daysFromCivil ⟨1970, 1, 1⟩ = 0 := by decide

example : daysFromCivil ⟨2014, 1, 1⟩ = 16071 := by decide

example : monthEnd0 ⟨2016, 2, 1⟩ = ⟨2016, 2, 29⟩ := by decide

example : monthStartsBetween ⟨2014, 1, 1⟩ ⟨2014, 4, 1⟩ =
    [⟨2014, 1, 1⟩, ⟨2014, 2, 1⟩, ⟨2014, 3, 1⟩, ⟨2014, 4, 1⟩] := by decide

/-- The spline restores its left-knot value at the left end of a segment. -/
theorem hermiteSeg_left (p q : Knot) : hermiteSeg p q p.1 = p.2.1 := by
  simp [hermiteSeg]

/-- The spline restores its right-knot value at the right end of a segment,
provided the knots are distinct. -/
theorem hermiteSeg_right (p q : Knot) (hne : p.1 ≠ q.1) :
    hermiteSeg p q q.1 = q.2.1 := by
  unfold hermiteSeg
  have h : q.1 - p.1 ≠ 0 := sub_ne_zero.mpr (Ne.symm hne)
  field_simp
  ring

/-- Interpolation property of the embedded spline: with pairwise increasing
knot abscissae, evaluation at any knot abscissa returns exactly the stored
knot value, for every choice of knot derivatives. -/
theorem evalSpline_knot (ps : List Knot)
    (hs : ps.Pairwise (fun a b => a.1 < b.1)) :
    ∀ p ∈ ps, evalSpline ps p.1 = p.2.1 := by
  induction ps with
  | nil => intro p hp; cases hp
  | cons a tail ih =>
    intro p hp
    match tail, hp with
    | [], hp =>
      rcases List.mem_singleton.mp hp with rfl
      rfl
    | [b], hp =>
      rcases List.mem_cons.mp hp with rfl | hp
      · simpa [evalSpline] using hermiteSeg_left p b
      · rcases List.mem_singleton.mp hp with rfl
        have hab : a.1 < p.1 := by
          have := List.pairwise_cons.mp hs
          exact this.1 p (List.mem_singleton.mpr rfl)
        simpa [evalSpline] using hermiteSeg_right a p (ne_of_lt hab)
    | b :: c :: rest, hp =>
      have hcons := List.pairwise_cons.mp hs
      rcases List.mem_cons.mp hp with rfl | hp
      · have hlt : p.1 < b.1 := hcons.1 b (by simp)
        simp [evalSpline, hlt, hermiteSeg_left]
      · have hble : b.1 ≤ p.1 := by
          rcases List.mem_cons.mp hp with rfl | hp'
          · exact le_refl _
          · exact le_of_lt ((List.pairwise_cons.mp hcons.2).1 p hp')
        have hnotlt : ¬ p.1 < b.1 := not_lt.mpr hble
        simpa [evalSpline, hnotlt] using ih hcons.2 p hp

/-! ### Accessor lemmas -/

theorem except_bind_ok {ε α β : Type} (a : α) (f : α → Except ε β) :
    (Except.ok a : Except ε α) >>= f = f a := rfl

theorem stage1_eq (ds : List YMD) (m2 cpi gdp ff tips btc sp gold : List ℚ) :
    compute_debasement_indicators
      (mkAligned ds m2 cpi gdp ff tips btc sp gold) =
      .ok (afterStage1 ds m2 cpi gdp ff tips btc sp gold) := rfl

theorem stage2_eq (lg : ℚ → ℚ) (ds : List YMD)
    (m2 cpi gdp ff tips btc sp gold : List ℚ) :
    compute_asset_returns lg (afterStage1 ds m2 cpi gdp ff tips btc sp gold) =
      .ok (afterStage2 lg ds m2 cpi gdp ff tips btc sp gold) := rfl

theorem stage34_eq (lg : ℚ → ℚ) (ds : List YMD)
    (m2 cpi gdp ff tips btc sp gold : List ℚ) :
    (compute_cash_real_return
        (afterStage2 lg ds m2 cpi gdp ff tips btc sp gold) >>=
      compute_spread_features) =
      .ok (afterStage4 lg ds m2 cpi gdp ff tips btc sp gold) := rfl

theorem stage56_eq (lg sq : ℚ → ℚ) (ds : List YMD)
    (m2 cpi gdp ff tips btc sp gold : List ℚ) :
    (standardize_debasement_indicators sq
        (afterStage4 lg ds m2 cpi gdp ff tips btc sp gold) >>=
      compute_zscore_composite_debasement_score) =
      .ok (preDrop lg sq ds m2 cpi gdp ff tips btc sp gold) := rfl

/-- On a valid aligned frame the six stages compute exactly the `preDrop`
frame (pure structural reduction: the stages' control flow only inspects
column names, never values). -/
theorem stagePipeline_mkAligned (lg sq : ℚ → ℚ) (ds : List YMD)
    (m2 cpi gdp ff tips btc sp gold : List ℚ) :
    stagePipeline lg sq (mkAligned ds m2 cpi gdp ff tips btc sp gold) =
      .ok (preDrop lg sq ds m2 cpi gdp ff tips btc sp gold) := by
  show (compute_debasement_indicators
      (mkAligned ds m2 cpi gdp ff tips btc sp gold) >>= fun t =>
    compute_asset_returns lg t >>= fun t =>
    compute_cash_real_return t >>= fun t =>
    compute_spread_features t >>= fun t =>
    standardize_debasement_indicators sq t >>=
    compute_zscore_composite_debasement_score) = _
  rw [stage1_eq, except_bind_ok]
  rw [stage2_eq, except_bind_ok]
  have h34 := stage34_eq lg ds m2 cpi gdp ff tips btc sp gold
  have h56 := stage56_eq lg sq ds m2 cpi gdp ff tips btc sp gold
  cases h3 : compute_cash_real_return
      (afterStage2 lg ds m2 cpi gdp ff tips btc sp gold) with
  | error e => rw [h3] at h34; cases h34
  | ok t₃ =>
    rw [h3, except_bind_ok] at h34
    rw [except_bind_ok, h34, except_bind_ok]
    cases h5 : standardize_debasement_indicators sq
        (afterStage4 lg ds m2 cpi gdp ff tips btc sp gold) with
    | error e => rw [h5] at h56; cases h56
    | ok t₅ =>
      rw [h5, except_bind_ok] at h56
      rw [except_bind_ok]
      exact h56

theorem getD_eq (xs : List (Option ℚ)) (i : ℕ) :
    xs.getD i none = (xs[i]?).getD none := by
  simp [List.getD_eq_getElem?_getD]

theorem getD_buildCol (n : ℕ) (f : ℕ → Option ℚ) (i : ℕ) :
    (buildCol n f).getD i none = if i < n then f i else none := by
  by_cases h : i < n
  · simp [buildCol, getD_eq, List.getElem?_range h, h]
  · have hlen : (buildCol n f).length = n := by simp [buildCol]
    rw [getD_eq, List.getElem?_eq_none (by omega), if_neg h]
    rfl

@[simp] theorem length_buildCol (n : ℕ) (f : ℕ → Option ℚ) :
    (buildCol n f).length = n := by simp [buildCol]

theorem getD_map_some (xs : List ℚ) (i : ℕ) :
    ((xs.map some).getD i none) = xs[i]? := by
  simp [getD_eq, List.getElem?_map]
  cases h : xs[i]? <;> rfl

theorem find?_setColList_same (cols : List (String × List (Option ℚ)))
    (k : String) (v : List (Option ℚ)) :
    (setColList cols k v).find? (fun c => c.1 = k) = some (k, v) := by
  induction cols with
  | nil => simp [setColList]
  | cons c rest ih =>
    by_cases h : c.1 = k
    · simp [setColList, h]
    · simp only [setColList, if_neg h]
      rw [List.find?_cons_of_neg _ (by simpa using h)]
      exact ih

theorem getColD_setCol_same (t : Table) (k : String) (v : List (Option ℚ)) :
    (t.setCol k v).getColD k = v := by
  simp [Table.getColD, Table.setCol, find?_setColList_same]

theorem getCol_setCol_same (t : Table) (k : String) (v : List (Option ℚ)) :
    (t.setCol k v).getCol k = .ok v := by
  simp [Table.getCol, Table.setCol, find?_setColList_same]

theorem find?_setColList_ne (cols : List (String × List (Option ℚ)))
    (k k' : String) (v : List (Option ℚ)) (hne : k' ≠ k) :
    (setColList cols k v).find? (fun c => c.1 = k') =
      cols.find? (fun c => c.1 = k') := by
  induction cols with
  | nil =>
    simp only [setColList]
    rw [List.find?_cons_of_neg _ (by simpa using Ne.symm hne)]
  | cons c rest ih =>
    by_cases h : c.1 = k
    · simp only [setColList, if_pos h]
      rw [List.find?_cons_of_neg _ (by simpa using Ne.symm hne),
        List.find?_cons_of_neg _ (by simp only [h]; simpa using Ne.symm hne)]
    · simp only [setColList, if_neg h]
      by_cases h' : c.1 = k'
      · rw [List.find?_cons_of_pos _ (by simpa using h'),
          List.find?_cons_of_pos _ (by simpa using h')]
      · rw [List.find?_cons_of_neg _ (by simpa using h'),
          List.find?_cons_of_neg _ (by simpa using h')]
        exact ih

theorem getCol_setCol_ne (t : Table) (k k' : String) (v : List (Option ℚ))
    (hne : k' ≠ k) : (t.setCol k v).getCol k' = t.getCol k' := by
  simp [Table.getCol, Table.setCol, find?_setColList_ne _ _ _ _ hne]

/-! ### Canonical-form lemmas for the engineered columns -/

theorem getD_map_some_lt (xs : List ℚ) (j : ℕ) (h : j < xs.length) :
    (xs.map some).getD j none = some (xs.getD j 0) := by
  rw [getD_eq, List.getElem?_map, List.getElem?_eq_getElem h]
  simp [List.getD_eq_getElem?_getD, List.getElem?_eq_getElem h]

theorem buildCol_ext (n : ℕ) (f g : ℕ → Option ℚ) (h : ∀ i < n, f i = g i) :
    buildCol n f = buildCol n g :=
  List.map_congr_left (fun i hi => h i (List.mem_range.mp hi))

theorem map_buildCol (h : Option ℚ → Option ℚ) (n : ℕ) (f : ℕ → Option ℚ) :
    (buildCol n f).map h = buildCol n (fun i => h (f i)) := by
  simp [buildCol, List.map_map, Function.comp_def]

theorem map_some_eq_buildCol (xs : List ℚ) :
    xs.map some = buildCol xs.length (fun i => some (xs.getD i 0)) := by
  refine List.ext_getElem? (fun i => ?_)
  by_cases h : i < xs.length
  · rw [List.getElem?_map, List.getElem?_eq_getElem h]
    rw [show (buildCol xs.length fun i => some (xs.getD i 0))[i]? =
        some (some (xs.getD i 0)) by
      simp [buildCol, List.getElem?_map, List.getElem?_range h]]
    simp [List.getD_eq_getElem?_getD, List.getElem?_eq_getElem h]
  · rw [List.getElem?_eq_none (by simpa using Nat.le_of_not_lt h),
      List.getElem?_eq_none (by simpa using Nat.le_of_not_lt h)]

theorem y1col_canon (xs : List ℚ)
    (hnz : ∀ j < xs.length, xs.getD j 0 ≠ 0) :
    y1col xs = buildCol xs.length
      (fun i => if 12 ≤ i then some (yoyAt xs i) else none) := by
  unfold y1col mulC pctChange12
  rw [show (xs.map some).length = xs.length by simp]
  rw [map_buildCol]
  apply buildCol_ext
  intro i hi
  by_cases h12 : i < 12
  · rw [if_pos h12, if_neg (by omega)]
    rfl
  · rw [if_neg h12, if_pos (by omega)]
    rw [getD_map_some_lt xs (i - 12) (by omega), getD_map_some_lt xs i hi]
    have h0 : ¬ xs[i - 12]?.getD 0 = 0 := by
      rw [← List.getD_eq_getElem?_getD]
      exact hnz (i - 12) (by omega)
    simp [h0, yoyAt]

theorem y3col_canon (a b : List ℚ) (hb : b.length = a.length)
    (hnza : ∀ j < a.length, a.getD j 0 ≠ 0)
    (hnzb : ∀ j < b.length, b.getD j 0 ≠ 0) :
    y3col a b = buildCol a.length
      (fun i => if 12 ≤ i then some (yoyAt a i - yoyAt b i) else none) := by
  unfold y3col osub
  rw [y1col_canon a hnza, y1col_canon b hnzb, hb, length_buildCol]
  apply buildCol_ext
  intro i hi
  rw [getD_buildCol, getD_buildCol, if_pos hi, if_pos hi]
  by_cases h12 : 12 ≤ i
  · simp [h12]
  · simp [h12]

theorem y4col_canon (a g : List ℚ) (hg : g.length = a.length)
    (hnzg : ∀ j < g.length, g.getD j 0 ≠ 0) :
    y4col a g = buildCol a.length
      (fun i => some (a.getD i 0 / g.getD i 0)) := by
  unfold y4col odiv
  rw [show (a.map some).length = a.length by simp]
  apply buildCol_ext
  intro i hi
  rw [getD_map_some_lt a i hi, getD_map_some_lt g i (by omega)]
  have h0 : ¬ g[i]?.getD 0 = 0 := by
    rw [← List.getD_eq_getElem?_getD]
    exact hnzg i (by omega)
  simp [h0]

theorem retcol_canon (lg : ℚ → ℚ) (p : List ℚ)
    (hpos : ∀ j < p.length, 0 < p.getD j 0) :
    retcol lg p = buildCol p.length
      (fun i => if i = 0 then none else some (retAt lg p i)) := by
  unfold retcol ologPos odiv shift1
  rw [show (p.map some).length = p.length by simp]
  rw [map_buildCol]
  apply buildCol_ext
  intro i hi
  rw [getD_buildCol, if_pos hi]
  by_cases h0 : i = 0
  · rw [if_pos h0, if_pos h0]
    cases hv : (p.map some).getD i none <;> rfl
  · rw [if_neg h0, if_neg h0]
    rw [getD_map_some_lt p i hi, getD_map_some_lt p (i - 1) (by omega)]
    have hpi := hpos i hi
    have hpm := hpos (i - 1) (by omega)
    have hg1 : p[i]?.getD 0 = p.getD i 0 :=
      (List.getD_eq_getElem?_getD p i 0).symm
    have hg2 : p[i - 1]?.getD 0 = p.getD (i - 1) 0 :=
      (List.getD_eq_getElem?_getD p (i - 1) 0).symm
    have hpm' : ¬ p[i - 1]?.getD 0 = 0 := by rw [hg2]; exact ne_of_gt hpm
    have hr : ¬ p[i]?.getD 0 / p[i - 1]?.getD 0 ≤ 0 := by
      rw [hg1, hg2]
      exact not_le.mpr (div_pos hpi hpm)
    simp [hpm', hr, retAt]

theorem cashcol_canon (ff cpi : List ℚ) (hc : cpi.length = ff.length)
    (hnzc : ∀ j < cpi.length, cpi.getD j 0 ≠ 0) :
    cashcol ff cpi = buildCol ff.length
      (fun i => if 12 ≤ i then some (cashAt ff cpi i) else none) := by
  unfold cashcol omap osub
  rw [show (ff.map some).length = ff.length by simp]
  rw [map_buildCol]
  apply buildCol_ext
  intro i hi
  rw [y1col_canon cpi hnzc, getD_buildCol, hc, if_pos hi,
    getD_map_some_lt ff i hi]
  by_cases h12 : 12 ≤ i
  · rw [if_pos h12, if_pos h12]
    rfl
  · rw [if_neg h12, if_neg h12]
    rfl

theorem spreadcol_canon (lg : ℚ → ℚ) (p ff cpi : List ℚ)
    (hff : ff.length = p.length) (hc : cpi.length = ff.length)
    (hpos : ∀ j < p.length, 0 < p.getD j 0)
    (hnzc : ∀ j < cpi.length, cpi.getD j 0 ≠ 0) :
    spreadcol lg p ff cpi = buildCol p.length
      (fun i => if 12 ≤ i then some (retAt lg p i - cashAt ff cpi i)
        else none) := by
  unfold spreadcol osub
  rw [retcol_canon lg p hpos, cashcol_canon ff cpi hc hnzc, hff,
    length_buildCol]
  apply buildCol_ext
  intro i hi
  rw [getD_buildCol, getD_buildCol, if_pos hi, if_pos hi]
  by_cases h12 : 12 ≤ i
  · simp [h12, show i ≠ 0 by omega]
  · by_cases h0 : i = 0
    · simp [h12, h0]
    · simp [h12, h0]

/-! ### Means, variances and z-scores of patterned columns -/

theorem filter_le_range (n a : ℕ) :
    (List.range n).filter (fun i => a ≤ i) = List.range' a (n - a) := by
  induction n with
  | zero => simp
  | succ n ih =>
    rw [List.range_succ, List.filter_append, ih]
    by_cases h : a ≤ n
    · rw [show List.filter (fun i => decide (a ≤ i)) [n] = [n] by simp [h]]
      rw [show n + 1 - a = (n - a) + 1 by omega, List.range'_concat]
      rw [show a + 1 * (n - a) = n by omega]
    · rw [show List.filter (fun i => decide (a ≤ i)) [n] = [] by simp [h]]
      rw [show n + 1 - a = n - a by omega, List.append_nil]

theorem filterMap_id_buildCol (n : ℕ) (F : ℕ → Option ℚ) :
    (buildCol n F).filterMap id = (List.range n).filterMap F := by
  unfold buildCol
  rw [List.filterMap_map]
  rfl

theorem filterMap_some_eq_map (g : ℕ → ℚ) (F : ℕ → Option ℚ) :
    ∀ (l : List ℕ), (∀ i ∈ l, F i = some (g i)) → l.filterMap F = l.map g
  | [], _ => rfl
  | i :: t, h => by
    rw [List.filterMap_cons, h i (by simp), List.map_cons,
      filterMap_some_eq_map g F t (fun j hj => h j (by simp [hj]))]

theorem filterMap_pattern_eq (n a : ℕ) (g : ℕ → ℚ) (han : a ≤ n) :
    (List.range n).filterMap
        (fun i => if a ≤ i then some (g i) else none) =
      (List.range' a (n - a)).map g := by
  have hsplit : List.range n = List.range' 0 a ++ List.range' a (n - a) := by
    rw [List.range_eq_range', show n = (n - a) + a by omega]
    have := (List.range'_append_1 0 a (n - a)).symm
    simpa using this
  rw [hsplit, List.filterMap_append]
  have h1 : (List.range' 0 a).filterMap
      (fun i => if a ≤ i then some (g i) else none) = [] := by
    refine List.filterMap_eq_nil_iff.mpr ?_
    intro i hi
    rcases List.mem_range'.mp hi with ⟨j, hj, rfl⟩
    rw [if_neg (by omega)]
  have h2 : (List.range' a (n - a)).filterMap
      (fun i => if a ≤ i then some (g i) else none) =
      (List.range' a (n - a)).map g := by
    refine filterMap_some_eq_map g _ _ ?_
    intro i hi
    rcases List.mem_range'.mp hi with ⟨j, hj, rfl⟩
    rw [if_pos (by omega)]
  rw [h1, h2, List.nil_append]

theorem colMean_pattern (n a : ℕ) (g : ℕ → ℚ) (h : a < n) :
    colMean (buildCol n (fun i => if a ≤ i then some (g i) else none)) =
      some (meanQ ((List.range' a (n - a)).map g)) := by
  unfold colMean
  rw [filterMap_id_buildCol, filterMap_pattern_eq n a g (le_of_lt h)]
  rw [if_neg (by simp; omega)]

theorem colStd_pattern (sq : ℚ → ℚ) (n a : ℕ) (g : ℕ → ℚ)
    (h : a + 2 ≤ n) :
    colStd sq (buildCol n (fun i => if a ≤ i then some (g i) else none)) =
      some (sq (varQ ((List.range' a (n - a)).map g))) := by
  unfold colStd
  rw [filterMap_id_buildCol, filterMap_pattern_eq n a g (by omega)]
  rw [if_neg (by simp; omega)]

theorem colMean_all (n : ℕ) (g : ℕ → ℚ) (h : 0 < n) :
    colMean (buildCol n (fun i => some (g i))) =
      some (meanQ ((List.range' 0 n).map g)) := by
  unfold colMean
  rw [filterMap_id_buildCol,
    filterMap_some_eq_map g _ _ (fun i _ => rfl), List.range_eq_range']
  rw [if_neg (by simp; omega)]

theorem colStd_all (sq : ℚ → ℚ) (n : ℕ) (g : ℕ → ℚ) (h : 2 ≤ n) :
    colStd sq (buildCol n (fun i => some (g i))) =
      some (sq (varQ ((List.range' 0 n).map g))) := by
  unfold colStd
  rw [filterMap_id_buildCol,
    filterMap_some_eq_map g _ _ (fun i _ => rfl), List.range_eq_range']
  rw [if_neg (by simp; omega)]

theorem zscoreCol_pattern (sq : ℚ → ℚ) (n a : ℕ) (g : ℕ → ℚ)
    (h2 : a + 2 ≤ n)
    (hss : sq (varQ ((List.range' a (n - a)).map g)) ≠ 0) :
    zscoreCol sq (buildCol n (fun i => if a ≤ i then some (g i) else none)) =
      buildCol n (fun i => if a ≤ i then
        some ((g i - meanQ ((List.range' a (n - a)).map g)) /
          sq (varQ ((List.range' a (n - a)).map g))) else none) := by
  unfold zscoreCol
  rw [colMean_pattern n a g (by omega), colStd_pattern sq n a g h2,
    map_buildCol]
  apply buildCol_ext
  intro i hi
  by_cases h : a ≤ i
  · simp [h, hss]
  · simp [h]

theorem zscoreCol_all (sq : ℚ → ℚ) (n : ℕ) (g : ℕ → ℚ) (h2 : 2 ≤ n)
    (hss : sq (varQ ((List.range' 0 n).map g)) ≠ 0) :
    zscoreCol sq (buildCol n (fun i => some (g i))) =
      buildCol n (fun i =>
        some ((g i - meanQ ((List.range' 0 n).map g)) /
          sq (varQ ((List.range' 0 n).map g)))) := by
  unfold zscoreCol
  rw [colMean_all n g (by omega), colStd_all sq n g h2, map_buildCol]
  apply buildCol_ext
  intro i hi
  simp [hss]

/-! ### Centering and scaling algebra -/

theorem sum_map_sub_mul (l : List ℚ) (c d : ℚ) :
    (l.map (fun x => (x - c) * d)).sum = (l.sum - l.length * c) * d := by
  induction l with
  | nil => simp
  | cons x t ih =>
    simp only [List.map_cons, List.sum_cons, ih, List.length_cons]
    push_cast
    ring

theorem meanQ_center (l : List ℚ) (hl : l ≠ []) (s : ℚ) :
    meanQ (l.map (fun x => (x - meanQ l) / s)) = 0 := by
  have hmap : l.map (fun x => (x - meanQ l) / s) =
      l.map (fun x => (x - meanQ l) * s⁻¹) := by
    simp [div_eq_mul_inv]
  rw [hmap]
  unfold meanQ
  rw [sum_map_sub_mul]
  have hlen : (l.length : ℚ) ≠ 0 := by
    have := List.length_pos.mpr hl
    exact_mod_cast Nat.pos_iff_ne_zero.mp this
  have h0 : l.sum - l.length * (l.sum / l.length) = 0 := by
    field_simp
  rw [h0]
  simp

theorem sum_map_sq_div (l : List ℚ) (c s : ℚ) :
    (l.map (fun x => ((x - c) / s) ^ 2)).sum =
      (l.map (fun x => (x - c) ^ 2)).sum / s ^ 2 := by
  induction l with
  | nil => simp
  | cons x t ih =>
    rw [List.map_cons, List.sum_cons, ih, List.map_cons, List.sum_cons,
      div_pow]
    ring

theorem varQ_scaled (l : List ℚ) (hl : l ≠ []) (s : ℚ) :
    varQ (l.map (fun x => (x - meanQ l) / s)) = varQ l / s ^ 2 := by
  unfold varQ
  rw [meanQ_center l hl s]
  have hmm : (l.map (fun x => (x - meanQ l) / s)).map
      (fun x => (x - 0) ^ 2) = l.map (fun x => ((x - meanQ l) / s) ^ 2) := by
    simp [List.map_map, Function.comp_def]
  rw [hmm, sum_map_sq_div, List.length_map]
  rw [div_div, div_div, mul_comm]

/-! ### The final `dropna` on the engineered frame -/

theorem find?_map_keyed (cols : List (String × List (Option ℚ)))
    (F : List (Option ℚ) → List (Option ℚ)) (k : String) :
    (cols.map (fun c => (c.1, F c.2))).find? (fun c => c.1 = k) =
      (cols.find? (fun c => c.1 = k)).map (fun c => (c.1, F c.2)) := by
  induction cols with
  | nil => rfl
  | cons c t ih =>
    rw [List.map_cons]
    by_cases h : c.1 = k
    · rw [List.find?_cons_of_pos _ (by simp [h]),
        List.find?_cons_of_pos _ (by simp [h])]
      rfl
    · rw [List.find?_cons_of_neg _ (by simp [h]),
        List.find?_cons_of_neg _ (by simp [h])]
      exact ih

theorem find?_dropna_cols (t : Table) (k : String) :
    ((t.dropna).cols).find? (fun c => c.1 = k) =
      (t.cols.find? (fun c => c.1 = k)).map
        (fun c => (c.1, (dropnaKeep t).map (fun i => c.2.getD i none))) := by
  show (t.cols.map fun c =>
      (c.1, (dropnaKeep t).map (fun i => c.2.getD i none))).find? _ = _
  exact find?_map_keyed t.cols
    (fun v => (dropnaKeep t).map (fun i => v.getD i none)) k

theorem getColD_dropna_of_find (t : Table) (k : String)
    (c : String × List (Option ℚ))
    (hf : t.cols.find? (fun x => x.1 = k) = some c) :
    (t.dropna).getColD k =
      (dropnaKeep t).map (fun i => c.2.getD i none) := by
  unfold Table.getColD
  rw [find?_dropna_cols, hf]
  rfl

theorem names_dropna (t : Table) : (t.dropna).names = t.names := by
  simp [Table.dropna, Table.names, List.map_map, Function.comp_def]

theorem colMean_map_some (l : List ℕ) (h : ℕ → ℚ) (hl : l ≠ []) :
    colMean (l.map (fun i => some (h i))) = some (meanQ (l.map h)) := by
  unfold colMean
  rw [List.filterMap_map,
    filterMap_some_eq_map h (id ∘ fun i => some (h i)) l (fun i _ => rfl)]
  rw [if_neg (by simpa using hl)]

theorem colStd_map_some (sq : ℚ → ℚ) (l : List ℕ) (h : ℕ → ℚ)
    (hl : 2 ≤ l.length) :
    colStd sq (l.map (fun i => some (h i))) =
      some (sq (varQ (l.map h))) := by
  unfold colStd
  rw [List.filterMap_map,
    filterMap_some_eq_map h (id ∘ fun i => some (h i)) l (fun i _ => rfl)]
  rw [if_neg (by simp; omega)]

/-- The rows kept by the final `dropna()` on a valid aligned frame are
exactly the rows from index 12 on: rows 0–11 lack the 12-month-lookback
indicators, while every later row has every column present. -/
theorem dropnaKeep_preDrop (lg sq : ℚ → ℚ) (ds : List YMD)
    (m2 cpi gdp ff tips btc sp gold : List ℚ)
    (hm2 : m2.length = ds.length) (hcpi : cpi.length = ds.length)
    (hgdp : gdp.length = ds.length) (hff : ff.length = ds.length)
    (htips : tips.length = ds.length) (hbtc : btc.length = ds.length)
    (hsp : sp.length = ds.length) (hgold : gold.length = ds.length)
    (h14 : 14 ≤ ds.length)
    (hvalid : validForAnalysis sq m2 cpi gdp btc sp gold) :
    dropnaKeep (preDrop lg sq ds m2 cpi gdp ff tips btc sp gold) =
      List.range' 12 (ds.length - 12) := by
  obtain ⟨hm2nz, hcpinz, hgdpnz, hbtcpos, hsppos, hgoldpos,
    hss1, hss2, hss3, hss4⟩ := hvalid
  unfold yoyVals at hss1 hss2
  unfold realVals at hss3
  unfold ratioVals at hss4
  rw [hm2] at hss1 hss3 hss4
  rw [hcpi] at hss2
  rw [← filter_le_range ds.length 12]
  unfold dropnaKeep preDrop
  apply List.filter_congr
  intro i hi
  have hin : i < ds.length := List.mem_range.mp hi
  rw [map_some_eq_buildCol ff, map_some_eq_buildCol tips,
    y1col_canon m2 hm2nz, y1col_canon cpi hcpinz,
    y3col_canon m2 cpi (by omega) hm2nz hcpinz,
    y4col_canon m2 gdp (by omega) hgdpnz, retcol_canon lg btc hbtcpos,
    retcol_canon lg sp hsppos, retcol_canon lg gold hgoldpos,
    cashcol_canon ff cpi (by omega) hcpinz,
    spreadcol_canon lg btc ff cpi (by omega) (by omega) hbtcpos hcpinz,
    spreadcol_canon lg gold ff cpi (by omega) (by omega) hgoldpos hcpinz,
    spreadcol_canon lg sp ff cpi (by omega) (by omega) hsppos hcpinz,
    hm2, hcpi, hff, htips, hbtc, hsp, hgold]
  rw [zscoreCol_pattern sq ds.length 12 _ (by omega) hss1,
    zscoreCol_pattern sq ds.length 12 _ (by omega) hss2,
    zscoreCol_pattern sq ds.length 12 _ (by omega) hss3,
    zscoreCol_all sq ds.length _ (by omega) hss4]
  unfold rowMeanAcross
  by_cases h12 : 12 ≤ i
  · simp only [List.all_cons, List.all_nil, getD_buildCol, if_pos hin,
      if_pos h12, if_neg (show ¬ i = 0 by omega), List.filterMap_cons,
      List.filterMap_nil]
    simp [h12]
  · simp only [List.all_cons, List.all_nil, getD_buildCol, if_pos hin,
      if_neg h12, List.filterMap_cons, List.filterMap_nil]
    simp [h12]

/-- On a valid aligned frame with at least 14 rows,
`build_analysis_dataframe` succeeds and returns the `dropna` of the
engineered frame. -/
theorem build_mkAligned_eq (lg sq : ℚ → ℚ) (ds : List YMD)
    (m2 cpi gdp ff tips btc sp gold : List ℚ)
    (hm2 : m2.length = ds.length) (hcpi : cpi.length = ds.length)
    (hgdp : gdp.length = ds.length) (hff : ff.length = ds.length)
    (htips : tips.length = ds.length) (hbtc : btc.length = ds.length)
    (hsp : sp.length = ds.length) (hgold : gold.length = ds.length)
    (h14 : 14 ≤ ds.length)
    (hvalid : validForAnalysis sq m2 cpi gdp btc sp gold) :
    build_analysis_dataframe lg sq
        (mkAligned ds m2 cpi gdp ff tips btc sp gold) =
      .ok ((preDrop lg sq ds m2 cpi gdp ff tips btc sp gold).dropna) := by
  have hdates :
      ((preDrop lg sq ds m2 cpi gdp ff tips btc sp gold).dropna).dates =
      (List.range' 12 (ds.length - 12)).filterMap (fun i => ds[i]?) := by
    unfold Table.dropna
    rw [dropnaKeep_preDrop lg sq ds m2 cpi gdp ff tips btc sp gold hm2 hcpi
      hgdp hff htips hbtc hsp hgold h14 hvalid]
    rfl
  have hne :
      ((preDrop lg sq ds m2 cpi gdp ff tips btc sp gold).dropna).dates ≠
        [] := by
    rw [hdates]
    obtain ⟨v, hv⟩ : ∃ v, ds[(12 : ℕ)]? = some v :=
      ⟨_, List.getElem?_eq_getElem (by omega)⟩
    have hmem : v ∈ (List.range' 12 (ds.length - 12)).filterMap
        (fun i => ds[i]?) :=
      List.mem_filterMap.mpr ⟨12,
        List.mem_range'.mpr ⟨0, by omega, by omega⟩, hv⟩
    exact List.ne_nil_of_mem hmem
  unfold build_analysis_dataframe
  rw [stagePipeline_mkAligned, except_bind_ok]
  rw [if_neg (by simpa [List.isEmpty_iff] using hne)]

/-! ### Claim C3: spline interpolation and the month-end shift -/

theorem zipWith_mk_map_fst :
    ∀ (ps : List (ℚ × ℚ)) (ds : List ℚ), ps.length ≤ ds.length →
      (List.zipWith (fun (p : ℚ × ℚ) (d : ℚ) => (p.1, p.2, d)) ps ds).map
          (fun kt => kt.1) =
        ps.map (fun p => p.1)
  | [], _, _ => by simp
  | p :: ps, d :: ds, h => by
    simp only [List.zipWith_cons_cons, List.map_cons, List.cons.injEq, true_and]
    exact zipWith_mk_map_fst ps ds (by simpa using h)

theorem splineKnots_map_fst (slopesFn : List ℚ → List ℚ → List ℚ)
    (clean : List (YMD × ℚ))
    (hlen : clean.length ≤ (slopesFn (clean.map (fun p => toTimestamp p.1))
      (clean.map (fun p => p.2))).length) :
    (splineKnots slopesFn clean).map (fun kt => kt.1) =
      clean.map (fun p => toTimestamp p.1) := by
  unfold splineKnots
  rw [List.zip_map']
  rw [zipWith_mk_map_fst _ _ (by simpa using hlen)]
  simp

theorem isMonthEnd_monthEnd0 (t : YMD) : isMonthEnd (monthEnd0 t) := rfl

theorem monthStartsBetween_day_one (a b : YMD) :
    ∀ d ∈ monthStartsBetween a b, d.d = 1 := by
  intro d hd
  rcases List.mem_map.mp hd with ⟨k, _, rfl⟩
  rfl

/-- Claim C3: for every quarterly series with at least two (clean)
observations, the cubic-spline interpolant built inside
`interpolate_gdp_to_monthly` — for any knot derivatives scipy's not-a-knot
solve may produce — evaluates to exactly the original observed value at each
original quarterly anchor date; the generated monthly evaluation dates are
the first-of-month dates over the span of the clean series, and after the
shift applied by `align_all_series_to_monthly` they become the month-end
dates of those same months. -/
theorem c3_spline_hits_anchors_and_dates_shift_to_month_end
    (slopesFn : List ℚ → List ℚ → List ℚ) (gdp : Series)
    (h2 : 2 ≤ (cleanPairs gdp).length)
    (hslopes : (cleanPairs gdp).length ≤
      (slopesFn ((cleanPairs gdp).map (fun p => toTimestamp p.1))
        ((cleanPairs gdp).map (fun p => p.2))).length)
    (hsortedZ : ((cleanPairs gdp).map (fun p => tsInt p.1)).Pairwise
      (fun a b => a < b)) :
    (∀ p ∈ cleanPairs gdp,
      evalSpline (splineKnots slopesFn (cleanPairs gdp)) (toTimestamp p.1) =
        p.2) ∧
    (∃ r, interpolateGdpToMonthly slopesFn gdp = .ok r ∧
      r.map (fun q => q.1) =
        monthStartsBetween (dateMin ((cleanPairs gdp).map (fun p => p.1)))
          (dateMax ((cleanPairs gdp).map (fun p => p.1))) ∧
      (∀ q ∈ r, q.1.d = 1) ∧
      (shiftIndexToMonthEnd r).map (fun q => q.1) =
        (r.map (fun q => q.1)).map monthEnd0 ∧
      (∀ q ∈ shiftIndexToMonthEnd r, isMonthEnd q.1)) := by
  constructor
  · intro p hp
    obtain ⟨i, hi, hgi⟩ := List.getElem_of_mem hp
    have hzip : List.zip ((cleanPairs gdp).map (fun q => toTimestamp q.1))
        ((cleanPairs gdp).map (fun q => q.2)) =
        (cleanPairs gdp).map (fun q => (toTimestamp q.1, q.2)) :=
      List.zip_map' _ _ _
    have hds : i < (slopesFn ((cleanPairs gdp).map (fun q => toTimestamp q.1))
        ((cleanPairs gdp).map (fun q => q.2))).length := lt_of_lt_of_le hi hslopes
    have hzi : (List.zip ((cleanPairs gdp).map (fun q => toTimestamp q.1))
        ((cleanPairs gdp).map (fun q => q.2)))[i]? =
        some (toTimestamp p.1, p.2) := by
      rw [hzip]
      simp [List.getElem?_map, List.getElem?_eq_getElem hi, hgi]
    have hki : (splineKnots slopesFn (cleanPairs gdp))[i]? =
        some (toTimestamp p.1, p.2,
          (slopesFn ((cleanPairs gdp).map (fun q => toTimestamp q.1))
            ((cleanPairs gdp).map (fun q => q.2)))[i]) := by
      unfold splineKnots
      rw [List.getElem?_zipWith]
      rw [hzi, List.getElem?_eq_getElem hds]
    have hmem := List.getElem?_mem hki
    have hpw : (splineKnots slopesFn (cleanPairs gdp)).Pairwise
        (fun a b => a.1 < b.1) := by
      have hsorted : ((cleanPairs gdp).map (fun p => toTimestamp p.1)).Pairwise
          (fun a b => a < b) := by
        have h1 : ((cleanPairs gdp).map (fun p => tsInt p.1)).map
            (fun z : ℤ => (z : ℚ)) =
            (cleanPairs gdp).map (fun p => toTimestamp p.1) := by
          rw [List.map_map]
          rfl
        rw [← h1]
        refine List.Pairwise.map _ ?_ hsortedZ
        intro a b hab
        exact_mod_cast hab
      have hm := splineKnots_map_fst slopesFn (cleanPairs gdp) hslopes
      have := hm ▸ hsorted
      exact (List.pairwise_map.mp this)
    exact evalSpline_knot _ hpw _ hmem
  · have hok : interpolateGdpToMonthly slopesFn gdp = .ok
        ((monthStartsBetween (dateMin ((cleanPairs gdp).map (fun p => p.1)))
          (dateMax ((cleanPairs gdp).map (fun p => p.1)))).map
          (fun d =>
            (d, evalSpline (splineKnots slopesFn (cleanPairs gdp))
              (toTimestamp d)))) := by
      unfold interpolateGdpToMonthly
      rw [if_neg (by omega)]
      rfl
    refine ⟨_, hok, by simp [Function.comp_def], ?_,
      by simp [shiftIndexToMonthEnd, Function.comp_def], ?_⟩
    · intro q hq
      rcases List.mem_map.mp hq with ⟨d, hd, rfl⟩
      exact monthStartsBetween_day_one _ _ d hd
    · intro q hq
      rcases List.mem_map.mp hq with ⟨u, _, rfl⟩
      exact isMonthEnd_monthEnd0 _

/-- Witness for C3 at a concrete quarterly series: the interpolant passes
through the middle anchor. -/
theorem c3_witness :
    evalSpline (splineKnots c3slopes (cleanPairs c3gdp))
      (toTimestamp ⟨2014, 4, 1⟩) = 16 :=
  (c3_spline_hits_anchors_and_dates_shift_to_month_end c3slopes c3gdp
    (by simp [cleanPairs, c3gdp]) (by simp [cleanPairs, c3gdp, c3slopes])
    (by decide)).1 (⟨2014, 4, 1⟩, 16) (by simp [cleanPairs, c3gdp])

/-! ### Claim C4: the cash real return formula -/

theorem getD_omap (g : ℚ → ℚ) (l : List (Option ℚ)) (i : ℕ)
    (h : i < l.length) :
    (omap g l).getD i none = (l.getD i none).map g := by
  rw [getD_eq, getD_eq]
  simp only [omap, List.getElem?_map]
  rw [List.getElem?_eq_getElem h]
  rfl

theorem getD_osub (xs ys : List (Option ℚ)) (i : ℕ) (h : i < xs.length) :
    (osub xs ys).getD i none =
      match xs.getD i none, ys.getD i none with
      | some a, some b => some (a - b)
      | _, _ => none := by
  rw [osub, getD_buildCol, if_pos h]

/-- Claim C4: for every row of the aligned table on which both inputs are
present, the monthly cash real return produced by
`compute_cash_real_return` equals
`(fed_funds_rate - cpi_yoy_pct) / 12 / 100` — percent inputs turned into a
unitless monthly fraction by the divisions by 12 and by 100. -/
theorem c4_cash_real_return_formula (t : Table) (f c : List (Option ℚ))
    (hf : t.getCol "fed_funds_rate" = .ok f)
    (hc : t.getCol "cpi_yoy_pct" = .ok c) :
    ∃ u, compute_cash_real_return t = .ok u ∧
      ∀ i a b, i < f.length → f.getD i none = some a →
        c.getD i none = some b →
        (u.getColD "cash_real_return_monthly").getD i none =
          some ((a - b) / 12 / 100) := by
  have hok : compute_cash_real_return t = .ok
      (t.setCol "cash_real_return_monthly"
        (omap (fun a => a / 12 / 100) (osub f c))) := by
    unfold compute_cash_real_return
    rw [hf, hc]
    rfl
  refine ⟨_, hok, ?_⟩
  intro i a b hi ha hb
  rw [getColD_setCol_same]
  rw [getD_omap _ _ _ (by simpa [osub] using hi)]
  rw [getD_osub _ _ _ hi, ha, hb]
  rfl

/-- Witness for C4: with a 13% nominal rate and 1% YoY inflation, the
monthly cash real return is exactly 1/100. -/
theorem c4_witness :
    (compute_cash_real_return c4table).toOption.map
      (fun u => (u.getColD "cash_real_return_monthly").getD 0 none) =
      some (some (1 / 100)) := by
  obtain ⟨u, hu, hp⟩ := c4_cash_real_return_formula c4table [some 13] [some 1]
    (by with_unfolding_all rfl) (by with_unfolding_all rfl)
  rw [hu]
  have := hp 0 13 1 (by decide) (by with_unfolding_all rfl)
    (by with_unfolding_all rfl)
  simp only [Except.toOption, Option.map, this]
  norm_num

/-! ### Claim C8: absent required columns -/

theorem getCol_of_not_hasCol (t : Table) (k : String)
    (h : t.hasCol k = false) : t.getCol k = .error (.keyError k) := by
  unfold Table.getCol
  cases hfind : t.cols.find? (fun c => c.1 = k) with
  | none => rfl
  | some c =>
    exfalso
    have hc := List.find?_some hfind
    have hmem := List.mem_of_find?_eq_some hfind
    have : t.hasCol k = true := by
      unfold Table.hasCol
      exact List.any_eq_true.mpr ⟨c, hmem, hc⟩
    rw [h] at this
    cases this

/-- Counterexample to C8 as stated: on a frame with no columns, the first
feature stage fails with the pandas `KeyError` for `m2`, which is not the
`SchemaError` the claim names (no `SchemaError` class exists in the code). -/
theorem c8_counterexample :
    compute_debasement_indicators ⟨[], []⟩ = .error (.keyError "m2") ∧
      PyErr.keyError "m2" ≠ PyErr.schemaError "m2" := by
  exact ⟨rfl, by decide⟩

/-- Claim C8 (amended): each feature-engineering stage, handed a frame
lacking its first required input column, fails loudly with the pandas
`KeyError` naming that column — not with a `SchemaError`, which does not
exist in the code. -/
theorem c8_missing_column_raises_keyerror :
    (∀ t : Table, t.hasCol "m2" = false →
      compute_debasement_indicators t = .error (.keyError "m2")) ∧
    (∀ (lg : ℚ → ℚ) (t : Table), t.hasCol "btc_price" = false →
      compute_asset_returns lg t = .error (.keyError "btc_price")) ∧
    (∀ t : Table, t.hasCol "fed_funds_rate" = false →
      compute_cash_real_return t = .error (.keyError "fed_funds_rate")) ∧
    (∀ t : Table, t.hasCol "btc_return_monthly" = false →
      compute_spread_features t = .error (.keyError "btc_return_monthly")) ∧
    (∀ (sq : ℚ → ℚ) (t : Table), t.hasCol "m2_yoy_pct" = false →
      standardize_debasement_indicators sq t =
        .error (.keyError "m2_yoy_pct")) ∧
    (∀ t : Table, t.hasCol "z_m2_yoy_pct" = false →
      compute_zscore_composite_debasement_score t =
        .error (.keyError "z_m2_yoy_pct")) := by
  refine ⟨?_, ?_, ?_, ?_, ?_, ?_⟩
  · intro t h
    unfold compute_debasement_indicators debasementAssigns
    rw [getCol_of_not_hasCol t _ h]
    rfl
  · intro lg t h
    unfold compute_asset_returns assetReturnsAssigns
    rw [getCol_of_not_hasCol t _ h]
    rfl
  · intro t h
    unfold compute_cash_real_return
    rw [getCol_of_not_hasCol t _ h]
    rfl
  · intro t h
    unfold compute_spread_features
    rw [getCol_of_not_hasCol t _ h]
    rfl
  · intro sq t h
    unfold standardize_debasement_indicators
    rw [getCol_of_not_hasCol t _ h]
    rfl
  · intro t h
    unfold compute_zscore_composite_debasement_score
    rw [getCol_of_not_hasCol t _ h]
    rfl

/-- Witness for C8 (amended), at the empty frame. -/
theorem c8_witness :
    compute_cash_real_return ⟨[], []⟩ =
      .error (.keyError "fed_funds_rate") :=
  c8_missing_column_raises_keyerror.2.2.1 ⟨[], []⟩ rfl

/-! ### Claim C10: interpolation ignores missing quarterly observations -/

theorem cleanPairs_filter_isSome (s : Series) :
    cleanPairs (s.filter (fun p => p.2.isSome)) = cleanPairs s := by
  induction s with
  | nil => rfl
  | cons p rest ih =>
    cases hp : p.2 with
    | none =>
      simp only [cleanPairs, List.filter_cons, hp, Option.isSome_none,
        List.filterMap_cons, Option.map_none']
      simpa [cleanPairs] using ih
    | some v =>
      simp only [cleanPairs, List.filter_cons, hp, Option.isSome_some,
        List.filterMap_cons, Option.map_some']
      simpa [cleanPairs, hp] using ih

/-- Claim C10: a quarterly series containing missing observations is
interpolated by fitting the spline only through its non-missing (date,
value) pairs — the result is identical to interpolating the series with the
missing rows removed — it does not fail, its monthly index spans the
first-of-month dates from the earliest to the latest non-missing
observation, and its values are plain (never-missing) numbers. -/
theorem c10_interpolation_ignores_missing_observations
    (slopesFn : List ℚ → List ℚ → List ℚ) (gdp : Series)
    (_hmiss : ∃ p ∈ gdp, p.2 = none)
    (h2 : 2 ≤ (cleanPairs gdp).length) :
    interpolateGdpToMonthly slopesFn gdp =
      interpolateGdpToMonthly slopesFn (gdp.filter (fun p => p.2.isSome)) ∧
    interpolateGdpToMonthly slopesFn gdp =
      .ok (interpolatedGdp slopesFn gdp) ∧
    (interpolatedGdp slopesFn gdp).map (fun q => q.1) =
      monthStartsBetween (dateMin ((cleanPairs gdp).map (fun p => p.1)))
        (dateMax ((cleanPairs gdp).map (fun p => p.1))) := by
  refine ⟨?_, ?_, ?_⟩
  · unfold interpolateGdpToMonthly interpolatedGdp
    rw [cleanPairs_filter_isSome]
  · unfold interpolateGdpToMonthly
    rw [if_neg (by omega)]
  · simp [interpolatedGdp, Function.comp_def]

/-- Witness for C10: on a series with a NaN row, interpolation equals
interpolation of the NaN-free restriction and succeeds. -/
theorem c10_witness :
    interpolateGdpToMonthly c3slopes c10gdp =
      interpolateGdpToMonthly c3slopes
        (c10gdp.filter (fun p => p.2.isSome)) ∧
    interpolateGdpToMonthly c3slopes c10gdp =
      .ok (interpolatedGdp c3slopes c10gdp) := by
  have h := c10_interpolation_ignores_missing_observations c3slopes c10gdp
    (⟨(⟨2014, 2, 15⟩, none), by simp [c10gdp], rfl⟩)
    (by simp [cleanPairs, c10gdp])
  exact ⟨h.1, h.2.1⟩

/-! ### Claim C2: invariants of the aligned monthly table -/

theorem all_map_general {α β : Type} (f : α → β) (p : β → Bool)
    (l : List α) : (l.map f).all p = l.all (fun a => p (f a)) := by
  induction l with
  | nil => rfl
  | cons a t ih => simp only [List.map_cons, List.all_cons, ih]

theorem innerJoin_cons (s₀ : Series) (rest : List Series) :
    innerJoin (s₀ :: rest) =
      ((s₀.map (fun p => p.1)).filter
        (fun d => (s₀ :: rest).all (fun s => hasDate s d))).map
        (fun d => (d, (s₀ :: rest).map (fun s => valueAt s d))) := rfl

theorem alignRows_eq (s₀ : Series) (rest : List Series) :
    alignRows (s₀ :: rest) =
      (((((s₀.map (fun p => p.1)).filter
            (fun d => (s₀ :: rest).all (fun s => hasDate s d))).filter
          (fun d => ymdLe btcSeriesStart d)).filter
        (fun d => (s₀ :: rest).all (fun s => (valueAt s d).isSome))).map
        (fun d => (d, (s₀ :: rest).map (fun s => valueAt s d)))) := by
  unfold alignRows
  rw [innerJoin_cons, List.filter_map, List.filter_map]
  refine congrArg _ ?_
  have h1 : ∀ X : List YMD,
      X.filter ((fun r : YMD × List (Option ℚ) => ymdLe btcSeriesStart r.1) ∘
        (fun d => (d, (s₀ :: rest).map (fun s => valueAt s d)))) =
      X.filter (fun d => ymdLe btcSeriesStart d) :=
    fun X => List.filter_congr (fun d _ => rfl)
  have h2 : ∀ X : List YMD,
      X.filter ((fun r : YMD × List (Option ℚ) => r.2.all (fun v => v.isSome)) ∘
        (fun d => (d, (s₀ :: rest).map (fun s => valueAt s d)))) =
      X.filter (fun d => (s₀ :: rest).all (fun s => (valueAt s d).isSome)) :=
    fun X => List.filter_congr (fun d _ =>
      all_map_general (fun s => valueAt s d) (fun v => v.isSome) (s₀ :: rest))
  rw [h1, h2]

/-- Claim C2: whenever alignment succeeds, the produced table has no
missing value in any column, and its row (date) set is exactly the
intersection of the eight post-resampling monthly date sets (taken in the
ascending order of the first series), clipped to dates at or after
`BTC_SERIES_START`, with the rows still containing a missing value
dropped. -/
theorem c2_aligned_monthly_table_invariants
    (slopesFn : List ℚ → List ℚ → List ℚ)
    (m2 cpi gdp ff tips btc sp gold : Series) (t : Table)
    (halign : align_all_series_to_monthly slopesFn m2 cpi gdp ff tips btc sp
      gold = .ok t) :
    (∀ c ∈ t.cols, ∀ v ∈ c.2, v.isSome = true) ∧
    t.dates = ((((resampleME m2).map (fun p => p.1)).filter
        (fun d => (postResampled (interpolatedGdp slopesFn gdp) m2 cpi ff
          tips btc sp gold).all (fun s => hasDate s d))).filter
      (fun d => ymdLe btcSeriesStart d)).filter
      (fun d => (postResampled (interpolatedGdp slopesFn gdp) m2 cpi ff tips
        btc sp gold).all (fun s => (valueAt s d).isSome)) := by
  unfold align_all_series_to_monthly interpolateGdpToMonthly at halign
  by_cases h2 : (cleanPairs gdp).length < 2
  · rw [if_pos h2] at halign
    exact absurd halign (by simp)
  · rw [if_neg h2] at halign
    have halign' :
        (if (alignRows (postResampled (interpolatedGdp slopesFn gdp) m2 cpi
            ff tips btc sp gold)).isEmpty then
          (Except.error PyErr.valueErrorNaTDate : Except PyErr Table)
        else .ok (rowsToTable alignedNames
          (alignRows (postResampled (interpolatedGdp slopesFn gdp) m2 cpi ff
            tips btc sp gold)))) = .ok t := halign
    by_cases hrows : (alignRows (postResampled (interpolatedGdp slopesFn gdp)
        m2 cpi ff tips btc sp gold)).isEmpty
    · rw [if_pos hrows] at halign'
      exact absurd halign' (by simp)
    · rw [if_neg hrows] at halign'
      have ht : t = rowsToTable alignedNames
          (alignRows (postResampled (interpolatedGdp slopesFn gdp) m2 cpi ff
            tips btc sp gold)) := by
        cases halign'
        rfl
      subst ht
      have hconv : alignRows (postResampled (interpolatedGdp slopesFn gdp)
          m2 cpi ff tips btc sp gold) =
          (((((resampleME m2).map (fun p => p.1)).filter
              (fun d => (postResampled (interpolatedGdp slopesFn gdp) m2 cpi
                ff tips btc sp gold).all (fun s => hasDate s d))).filter
            (fun d => ymdLe btcSeriesStart d)).filter
            (fun d => (postResampled (interpolatedGdp slopesFn gdp) m2 cpi ff
              tips btc sp gold).all (fun s => (valueAt s d).isSome))).map
            (fun d => (d, (postResampled (interpolatedGdp slopesFn gdp) m2
              cpi ff tips btc sp gold).map (fun s => valueAt s d))) :=
        alignRows_eq (resampleME m2)
          [resampleME cpi, gdpAligned (interpolatedGdp slopesFn gdp),
           resampleME ff, resampleME tips, resampleME btc, resampleME sp,
           resampleME gold]
      constructor
      · intro c hc v hv
        rcases List.mem_map.mp hc with ⟨j, hj, rfl⟩
        rcases List.mem_map.mp hv with ⟨r, hr, rfl⟩
        rw [hconv] at hr
        rcases List.mem_map.mp hr with ⟨d, hd, rfl⟩
        have hdp := List.of_mem_filter hd
        have hall : ∀ s ∈ postResampled (interpolatedGdp slopesFn gdp) m2 cpi
            ff tips btc sp gold, (valueAt s d).isSome = true :=
          List.all_eq_true.mp hdp
        have hj8 : j < (postResampled (interpolatedGdp slopesFn gdp) m2 cpi
            ff tips btc sp gold).length := by
          have hjr := List.mem_range.mp hj
          exact hjr
        rw [getD_eq]
        rw [List.getElem?_map, List.getElem?_eq_getElem hj8]
        exact hall _ (List.getElem_mem hj8)
      · show (alignRows (postResampled (interpolatedGdp slopesFn gdp) m2 cpi
          ff tips btc sp gold)).map (fun r => r.1) = _
        rw [hconv]
        simp [List.map_map, Function.comp_def]

set_option maxRecDepth 40000

/-- Witness for C2: at a concrete input covering January–April 2014, the
aligned table's rows are exactly the four month-end dates common to every
resampled series. -/
theorem c2_witness :
    ((align_all_series_to_monthly c3slopes w2m2 w2cpi w2gdp w2daily w2daily
        w2daily w2daily w2daily).toOption.getD ⟨[], []⟩).dates =
      [⟨2014, 1, 31⟩, ⟨2014, 2, 28⟩, ⟨2014, 3, 31⟩, ⟨2014, 4, 30⟩] := by
  have h := c2_aligned_monthly_table_invariants c3slopes w2m2 w2cpi w2gdp
    w2daily w2daily w2daily w2daily w2daily _ (by with_unfolding_all rfl)
  exact h.2.trans (by with_unfolding_all decide)

/-! ### Claims C6 and C7: alignment failure modes -/

/-- Shared helper: when the joined-clipped-NaN-dropped row list is empty
(and the GDP interpolation itself succeeded), `align_all_series_to_monthly`
raises the `ValueError` coming from `.date()` on the empty index's `NaT`
minimum. -/
theorem align_empty_rows_error (slopesFn : List ℚ → List ℚ → List ℚ)
    (m2 cpi gdp ff tips btc sp gold : Series)
    (h2 : 2 ≤ (cleanPairs gdp).length)
    (hempty : alignRows (postResampled (interpolatedGdp slopesFn gdp) m2 cpi
      ff tips btc sp gold) = []) :
    align_all_series_to_monthly slopesFn m2 cpi gdp ff tips btc sp gold =
      .error .valueErrorNaTDate := by
  unfold align_all_series_to_monthly interpolateGdpToMonthly
  rw [if_neg (by omega)]
  show (if (alignRows (postResampled (interpolatedGdp slopesFn gdp) m2 cpi
      ff tips btc sp gold)).isEmpty then
    (Except.error PyErr.valueErrorNaTDate : Except PyErr Table)
  else .ok (rowsToTable alignedNames
    (alignRows (postResampled (interpolatedGdp slopesFn gdp) m2 cpi ff tips
      btc sp gold)))) = .error .valueErrorNaTDate
  rw [hempty]
  rfl

/-- Counterexample to C6 as stated: with disjoint date ranges the join is
empty and alignment does fail — but with the `ValueError` produced by the
diagnostic print on the empty frame, not with an `AlignmentEmptyError`
(no such exception class exists in the code). -/
theorem c6_counterexample :
    align_all_series_to_monthly c3slopes w2m2 w2cpi w2gdp w2daily w2daily
      c6btc w2daily w2daily = .error .valueErrorNaTDate ∧
    PyErr.valueErrorNaTDate ≠ PyErr.alignmentEmptyError := by
  exact ⟨by with_unfolding_all rfl, by decide⟩

/-- Claim C6 (amended): whenever the inner join across all series (after
clipping and NaN-dropping) yields zero rows — e.g. for disjoint date
ranges — alignment fails with a `ValueError` raised while summarising the
empty frame, rather than silently emitting an empty table; it is not an
`AlignmentEmptyError`, which the code never defines. -/
theorem c6_disjoint_ranges_fail_with_valueerror
    (slopesFn : List ℚ → List ℚ → List ℚ)
    (m2 cpi gdp ff tips btc sp gold : Series)
    (h2 : 2 ≤ (cleanPairs gdp).length)
    (hempty : alignRows (postResampled (interpolatedGdp slopesFn gdp) m2 cpi
      ff tips btc sp gold) = []) :
    align_all_series_to_monthly slopesFn m2 cpi gdp ff tips btc sp gold =
      .error .valueErrorNaTDate ∧
    align_all_series_to_monthly slopesFn m2 cpi gdp ff tips btc sp gold ≠
      .error .alignmentEmptyError := by
  have h := align_empty_rows_error slopesFn m2 cpi gdp ff tips btc sp gold
    h2 hempty
  refine ⟨h, ?_⟩
  rw [h]
  intro hcontra
  cases hcontra

/-- Witness for C6 (amended), at the concrete disjoint input. -/
theorem c6_witness :
    align_all_series_to_monthly c3slopes w2m2 w2cpi w2gdp w2daily w2daily
      c6btc w2daily w2daily = .error .valueErrorNaTDate :=
  (c6_disjoint_ranges_fail_with_valueerror c3slopes w2m2 w2cpi w2gdp w2daily
    w2daily c6btc w2daily w2daily (by simp [cleanPairs, w2gdp])
    (by with_unfolding_all rfl)).1

/-- Counterexample to C7 as stated: with a single-observation quarterly
series the Aligner does fail — but with the `ValueError` raised by the
`CubicSpline` constructor, not with an `InsufficientDataError` (no such
exception class exists in the code). -/
theorem c7_counterexample :
    align_all_series_to_monthly c3slopes w2m2 w2cpi c7gdp w2daily w2daily
      w2daily w2daily w2daily = .error .valueErrorSpline ∧
    PyErr.valueErrorSpline ≠ PyErr.insufficientDataError := by
  exact ⟨by with_unfolding_all rfl, by decide⟩

/-- Claim C7 (amended): a quarterly series with fewer than two non-missing
observations makes the Aligner fail with the spline constructor's
`ValueError`; an input series with zero observations makes it fail with the
empty-join `ValueError` of the diagnostic prints.  In neither case is an
`InsufficientDataError` raised — the code defines no such class.  (A daily
or monthly series with one observation does not by itself cause a
failure.) -/
theorem c7_insufficient_data_fails_with_valueerror :
    (∀ (slopesFn : List ℚ → List ℚ → List ℚ)
      (m2 cpi gdp ff tips btc sp gold : Series),
      (cleanPairs gdp).length < 2 →
      align_all_series_to_monthly slopesFn m2 cpi gdp ff tips btc sp gold =
        .error .valueErrorSpline) ∧
    (∀ (slopesFn : List ℚ → List ℚ → List ℚ)
      (m2 cpi gdp ff tips sp gold : Series),
      2 ≤ (cleanPairs gdp).length →
      align_all_series_to_monthly slopesFn m2 cpi gdp ff tips [] sp gold =
        .error .valueErrorNaTDate) := by
  constructor
  · intro slopesFn m2 cpi gdp ff tips btc sp gold h
    unfold align_all_series_to_monthly interpolateGdpToMonthly
    rw [if_pos h]
  · intro slopesFn m2 cpi gdp ff tips sp gold h2
    refine align_empty_rows_error slopesFn m2 cpi gdp ff tips [] sp gold h2 ?_
    show alignRows (resampleME m2 ::
      [resampleME cpi, gdpAligned (interpolatedGdp slopesFn gdp),
       resampleME ff, resampleME tips, resampleME ([] : Series),
       resampleME sp, resampleME gold]) = []
    rw [alignRows_eq (resampleME m2)
      [resampleME cpi, gdpAligned (interpolatedGdp slopesFn gdp),
       resampleME ff, resampleME tips, resampleME ([] : Series),
       resampleME sp, resampleME gold]]
    have hP : ((resampleME m2).map (fun p => p.1)).filter
        (fun d => (resampleME m2 ::
          [resampleME cpi, gdpAligned (interpolatedGdp slopesFn gdp),
           resampleME ff, resampleME tips, resampleME ([] : Series),
           resampleME sp, resampleME gold]).all
          (fun s => hasDate s d)) = [] := by
      have hres : resampleME ([] : Series) = [] := rfl
      refine List.filter_eq_nil_iff.mpr ?_
      intro d _
      simp [List.all_cons, hres, hasDate]
    rw [hP]
    rfl

@[simp] theorem okThen_error {α : Type} (e : PyErr)
    (f : α → Except PyErr (Heap × ℕ)) :
    okThen (.error e) f = .error e := rfl

@[simp] theorem okThen_ok {α : Type} (a : α)
    (f : α → Except PyErr (Heap × ℕ)) : okThen (.ok a) f = f a := rfl

theorem heap_zero_of_write_alloc (h : Heap) (r : ℕ) (t₁ t₂ : Table)
    (hr : 1 ≤ r) (hlen : r < h.length) :
    (writeT h r t₁ ++ [t₂])[0]? = h[0]? := by
  have h0 : 0 < (writeT h r t₁).length := by simp [writeT]; omega
  rw [List.getElem?_append, if_pos h0]
  exact List.getElem?_set_ne (by omega)

theorem stage1Heap_pres (h : Heap) (r : ℕ) (h' : Heap) (r' : ℕ)
    (hr : 1 ≤ r) (hlen : r < h.length)
    (hok : stage1Heap h r = .ok (h', r')) :
    h'[0]? = h[0]? ∧ 1 ≤ r' ∧ r' < h'.length := by
  unfold stage1Heap at hok
  cases ha : debasementAssigns (readT h r) with
  | error e => rw [ha, okThen_error] at hok; cases hok
  | ok t₁ =>
    rw [ha, okThen_ok] at hok
    cases hd : t₁.dropCols ["m2", "cpi", "gdp_monthly"] with
    | error e => rw [hd, okThen_error] at hok; cases hok
    | ok t₂ =>
      rw [hd, okThen_ok] at hok
      cases hok
      refine ⟨heap_zero_of_write_alloc h r t₁ t₂ hr hlen, ?_, ?_⟩
      · simp [writeT]; omega
      · simp [writeT]

theorem stage2Heap_pres (lg : ℚ → ℚ) (h : Heap) (r : ℕ) (h' : Heap) (r' : ℕ)
    (hr : 1 ≤ r) (hlen : r < h.length)
    (hok : stage2Heap lg h r = .ok (h', r')) :
    h'[0]? = h[0]? ∧ 1 ≤ r' ∧ r' < h'.length := by
  unfold stage2Heap at hok
  cases ha : assetReturnsAssigns lg (readT h r) with
  | error e => rw [ha, okThen_error] at hok; cases hok
  | ok t₁ =>
    rw [ha, okThen_ok] at hok
    cases hd : t₁.dropCols ["btc_price", "sp500_price", "gold_price"] with
    | error e => rw [hd, okThen_error] at hok; cases hok
    | ok t₂ =>
      rw [hd, okThen_ok] at hok
      cases hok
      refine ⟨heap_zero_of_write_alloc h r t₁ t₂ hr hlen, ?_, ?_⟩
      · simp [writeT]; omega
      · simp [writeT]

theorem inPlaceStageHeap_pres (stage : Table → Except PyErr Table)
    (h : Heap) (r : ℕ) (h' : Heap) (r' : ℕ)
    (hr : 1 ≤ r) (hlen : r < h.length)
    (hok : inPlaceStageHeap stage h r = .ok (h', r')) :
    h'[0]? = h[0]? ∧ 1 ≤ r' ∧ r' < h'.length := by
  unfold inPlaceStageHeap at hok
  cases ha : stage (readT h r) with
  | error e => rw [ha, okThen_error] at hok; cases hok
  | ok t₁ =>
    rw [ha, okThen_ok] at hok
    cases hok
    refine ⟨List.getElem?_set_ne (by omega), hr, ?_⟩
    simpa [writeT] using hlen

/-- Claim C9: running the feature-engineering pipeline in the heap model
starting from the caller's heap `[t]` (the aligned frame at reference 0)
leaves the frame at reference 0 — the caller's `aligned_df` — exactly as it
was: the `copy()` at the top of `build_analysis_dataframe` shields the
input, and every mutation targets the copy or a frame derived from it. -/
theorem c9_feature_engineering_on_copy (lg sq : ℚ → ℚ) (t : Table)
    (h' : Heap) (r' : ℕ)
    (hok : build_analysis_dataframe_heap lg sq [t] 0 = .ok (h', r')) :
    h'[0]? = some t := by
  unfold build_analysis_dataframe_heap at hok
  have hstart : (([t] : Heap) ++ [readT [t] 0])[0]? = some t := rfl
  cases h1 : stage1Heap ([t] ++ [readT [t] 0]) ([t] : Heap).length with
  | error e => rw [h1, okThen_error] at hok; cases hok
  | ok p₁ =>
    rw [h1, okThen_ok] at hok
    have hp₁ := stage1Heap_pres _ _ _ _ (by simp) (by simp) h1
    cases h2 : stage2Heap lg p₁.1 p₁.2 with
    | error e => rw [h2, okThen_error] at hok; cases hok
    | ok p₂ =>
      rw [h2, okThen_ok] at hok
      have hp₂ := stage2Heap_pres lg _ _ _ _ hp₁.2.1 hp₁.2.2 h2
      cases h3 : inPlaceStageHeap compute_cash_real_return p₂.1 p₂.2 with
      | error e => rw [h3, okThen_error] at hok; cases hok
      | ok p₃ =>
        rw [h3, okThen_ok] at hok
        have hp₃ := inPlaceStageHeap_pres _ _ _ _ _ hp₂.2.1 hp₂.2.2 h3
        cases h4 : inPlaceStageHeap compute_spread_features p₃.1 p₃.2 with
        | error e => rw [h4, okThen_error] at hok; cases hok
        | ok p₄ =>
          rw [h4, okThen_ok] at hok
          have hp₄ := inPlaceStageHeap_pres _ _ _ _ _ hp₃.2.1 hp₃.2.2 h4
          cases h5 : inPlaceStageHeap (standardize_debasement_indicators sq)
              p₄.1 p₄.2 with
          | error e => rw [h5, okThen_error] at hok; cases hok
          | ok p₅ =>
            rw [h5, okThen_ok] at hok
            have hp₅ := inPlaceStageHeap_pres _ _ _ _ _ hp₄.2.1 hp₄.2.2 h5
            cases h6 : inPlaceStageHeap
                compute_zscore_composite_debasement_score p₅.1 p₅.2 with
            | error e => rw [h6, okThen_error] at hok; cases hok
            | ok p₆ =>
              rw [h6, okThen_ok] at hok
              have hp₆ := inPlaceStageHeap_pres _ _ _ _ _ hp₅.2.1 hp₅.2.2 h6
              by_cases hemp : ((readT p₆.1 p₆.2).dropna).dates.isEmpty
              · rw [if_pos hemp] at hok; cases hok
              · rw [if_neg hemp] at hok
                cases hok
                have hchain : p₆.1[0]? = some t := by
                  rw [hp₆.1, hp₅.1, hp₄.1, hp₃.1, hp₂.1, hp₁.1]
                  exact hstart
                have h0 : 0 < p₆.1.length := by
                  rcases List.getElem?_eq_some_iff.mp hchain with ⟨hlt, _⟩
                  omega
                rw [List.getElem?_append, if_pos h0]
                exact hchain

/-- Witness for C9: a successful concrete heap run leaves reference 0 — the
caller's aligned frame — untouched. -/
theorem c9_witness :
    ((build_analysis_dataframe_heap c9log c9sqrt [c9table] 0).toOption.getD
        ([], 0)).1[0]? = some c9table :=
  c9_feature_engineering_on_copy c9log c9sqrt c9table _ _
    (by with_unfolding_all rfl)

/-- A lookback z-score column restricted to the surviving rows has mean 0
and, when `sq` is exact at the relevant variance, standard deviation 1. -/
theorem zcol_standardized (sq : ℚ → ℚ) (n : ℕ) (g : ℕ → ℚ)
    (h14 : 14 ≤ n)
    (hv : varQ ((List.range' 12 (n - 12)).map g) ≠ 0)
    (hs : sq (varQ ((List.range' 12 (n - 12)).map g)) ^ 2 =
      varQ ((List.range' 12 (n - 12)).map g))
    (hsq1 : sq 1 = 1) :
    colMean ((List.range' 12 (n - 12)).map
        (fun i => (zscoreCol sq (buildCol n
          (fun j => if 12 ≤ j then some (g j) else none))).getD i none)) =
      some 0 ∧
    colStd sq ((List.range' 12 (n - 12)).map
        (fun i => (zscoreCol sq (buildCol n
          (fun j => if 12 ≤ j then some (g j) else none))).getD i none)) =
      some 1 := by
  have hss0 : sq (varQ ((List.range' 12 (n - 12)).map g)) ≠ 0 :=
    fun h0 => hv (by rw [← hs, h0]; norm_num)
  rw [zscoreCol_pattern sq n 12 g (by omega) hss0]
  set K := List.range' 12 (n - 12) with hK
  set vals := K.map g with hvals
  set M := meanQ vals with hM
  set S := sq (varQ vals) with hS
  have hKlen : K.length = n - 12 := by rw [hK, List.length_range']
  have hKne : K ≠ [] := List.length_pos.mp (by rw [hKlen]; omega)
  have hvlen : vals.length = n - 12 := by
    rw [hvals, List.length_map, hKlen]
  have hvne : vals ≠ [] := List.length_pos.mp (by rw [hvlen]; omega)
  have hmap : K.map (fun i => (buildCol n (fun j => if 12 ≤ j then
      some ((g j - M) / S) else none)).getD i none) =
      K.map (fun i => some ((g i - M) / S)) := by
    apply List.map_congr_left
    intro i hi
    obtain ⟨k, hk, rfl⟩ := List.mem_range'.mp (hK ▸ hi)
    rw [getD_buildCol, if_pos (by omega), if_pos (by omega)]
  rw [hmap, colMean_map_some K (fun i => (g i - M) / S) hKne,
    colStd_map_some sq K (fun i => (g i - M) / S) (by rw [hKlen]; omega)]
  have hmm : K.map (fun i => (g i - M) / S) =
      vals.map (fun x => (x - M) / S) := by
    rw [hvals, List.map_map]
    rfl
  rw [hmm]
  constructor
  · rw [hM, meanQ_center vals hvne S]
  · rw [hM, varQ_scaled vals hvne S, hs, div_self hv, hsq1]

/-- Claim C5 (amended): on every aligned frame with at least 14 rows that
is valid for analysis (nonzero pct-change/ratio denominators, positive
asset prices, nondegenerate indicator standard deviations — the domain on
which the real pipeline produces a clean frame), with the square root
exact at the three nonzero lookback variances, the three lookback z-score
columns `z_m2_yoy_pct`, `z_cpi_yoy_pct` and `z_real_m2_growth` have
sample mean 0 and sample standard deviation 1 over the persisted output
table — because the rows their standardization ran over are exactly the
rows `dropna()` keeps.  The fourth z-score column, `z_m2_to_gdp`, is
standardized over *all* rows of the pre-drop frame while only the rows
from index 12 on are persisted, so its persisted mean and standard
deviation are in general not 0 and 1 (`c5_counterexample`). -/
theorem c5_lookback_zscores_standardized (lg sq : ℚ → ℚ) (ds : List YMD)
    (m2 cpi gdp ff tips btc sp gold : List ℚ)
    (hm2 : m2.length = ds.length) (hcpi : cpi.length = ds.length)
    (hgdp : gdp.length = ds.length) (hff : ff.length = ds.length)
    (htips : tips.length = ds.length) (hbtc : btc.length = ds.length)
    (hsp : sp.length = ds.length) (hgold : gold.length = ds.length)
    (h14 : 14 ≤ ds.length)
    (hv1 : varQ (yoyVals m2) ≠ 0)
    (hs1 : sq (varQ (yoyVals m2)) ^ 2 = varQ (yoyVals m2))
    (hv2 : varQ (yoyVals cpi) ≠ 0)
    (hs2 : sq (varQ (yoyVals cpi)) ^ 2 = varQ (yoyVals cpi))
    (hv3 : varQ (realVals m2 cpi) ≠ 0)
    (hs3 : sq (varQ (realVals m2 cpi)) ^ 2 = varQ (realVals m2 cpi))
    (hsq1 : sq 1 = 1)
    (hvalid : validForAnalysis sq m2 cpi gdp btc sp gold) :
    ∃ out, build_analysis_dataframe lg sq
        (mkAligned ds m2 cpi gdp ff tips btc sp gold) = .ok out ∧
      colMean (out.getColD "z_m2_yoy_pct") = some 0 ∧
      colStd sq (out.getColD "z_m2_yoy_pct") = some 1 ∧
      colMean (out.getColD "z_cpi_yoy_pct") = some 0 ∧
      colStd sq (out.getColD "z_cpi_yoy_pct") = some 1 ∧
      colMean (out.getColD "z_real_m2_growth") = some 0 ∧
      colStd sq (out.getColD "z_real_m2_growth") = some 1 := by
  obtain ⟨hm2nz, hcpinz, -, -, -, -, -, -, -, -⟩ := id hvalid
  unfold yoyVals at hv1 hs1 hv2 hs2
  unfold realVals at hv3 hs3
  rw [hm2] at hv1 hs1 hv3 hs3
  rw [hcpi] at hv2 hs2
  refine ⟨_, build_mkAligned_eq lg sq ds m2 cpi gdp ff tips btc sp gold
    hm2 hcpi hgdp hff htips hbtc hsp hgold h14 hvalid, ?_, ?_, ?_, ?_, ?_,
    ?_⟩
  · rw [getColD_dropna_of_find _ _ _
      (show (preDrop lg sq ds m2 cpi gdp ff tips btc sp gold).cols.find?
          (fun x => x.1 = "z_m2_yoy_pct") =
        some ("z_m2_yoy_pct", zscoreCol sq (y1col m2)) from rfl),
      dropnaKeep_preDrop lg sq ds m2 cpi gdp ff tips btc sp gold
        hm2 hcpi hgdp hff htips hbtc hsp hgold h14 hvalid,
      y1col_canon m2 hm2nz, hm2]
    exact (zcol_standardized sq ds.length (yoyAt m2) h14 hv1 hs1 hsq1).1
  · rw [getColD_dropna_of_find _ _ _
      (show (preDrop lg sq ds m2 cpi gdp ff tips btc sp gold).cols.find?
          (fun x => x.1 = "z_m2_yoy_pct") =
        some ("z_m2_yoy_pct", zscoreCol sq (y1col m2)) from rfl),
      dropnaKeep_preDrop lg sq ds m2 cpi gdp ff tips btc sp gold
        hm2 hcpi hgdp hff htips hbtc hsp hgold h14 hvalid,
      y1col_canon m2 hm2nz, hm2]
    exact (zcol_standardized sq ds.length (yoyAt m2) h14 hv1 hs1 hsq1).2
  · rw [getColD_dropna_of_find _ _ _
      (show (preDrop lg sq ds m2 cpi gdp ff tips btc sp gold).cols.find?
          (fun x => x.1 = "z_cpi_yoy_pct") =
        some ("z_cpi_yoy_pct", zscoreCol sq (y1col cpi)) from rfl),
      dropnaKeep_preDrop lg sq ds m2 cpi gdp ff tips btc sp gold
        hm2 hcpi hgdp hff htips hbtc hsp hgold h14 hvalid,
      y1col_canon cpi hcpinz, hcpi]
    exact (zcol_standardized sq ds.length (yoyAt cpi) h14 hv2 hs2 hsq1).1
  · rw [getColD_dropna_of_find _ _ _
      (show (preDrop lg sq ds m2 cpi gdp ff tips btc sp gold).cols.find?
          (fun x => x.1 = "z_cpi_yoy_pct") =
        some ("z_cpi_yoy_pct", zscoreCol sq (y1col cpi)) from rfl),
      dropnaKeep_preDrop lg sq ds m2 cpi gdp ff tips btc sp gold
        hm2 hcpi hgdp hff htips hbtc hsp hgold h14 hvalid,
      y1col_canon cpi hcpinz, hcpi]
    exact (zcol_standardized sq ds.length (yoyAt cpi) h14 hv2 hs2 hsq1).2
  · rw [getColD_dropna_of_find _ _ _
      (show (preDrop lg sq ds m2 cpi gdp ff tips btc sp gold).cols.find?
          (fun x => x.1 = "z_real_m2_growth") =
        some ("z_real_m2_growth", zscoreCol sq (y3col m2 cpi)) from rfl),
      dropnaKeep_preDrop lg sq ds m2 cpi gdp ff tips btc sp gold
        hm2 hcpi hgdp hff htips hbtc hsp hgold h14 hvalid,
      y3col_canon m2 cpi (by omega) hm2nz hcpinz, hm2]
    exact (zcol_standardized sq ds.length
      (fun i => yoyAt m2 i - yoyAt cpi i) h14 hv3 hs3 hsq1).1
  · rw [getColD_dropna_of_find _ _ _
      (show (preDrop lg sq ds m2 cpi gdp ff tips btc sp gold).cols.find?
          (fun x => x.1 = "z_real_m2_growth") =
        some ("z_real_m2_growth", zscoreCol sq (y3col m2 cpi)) from rfl),
      dropnaKeep_preDrop lg sq ds m2 cpi gdp ff tips btc sp gold
        hm2 hcpi hgdp hff htips hbtc hsp hgold h14 hvalid,
      y3col_canon m2 cpi (by omega) hm2nz hcpinz, hm2]
    exact (zcol_standardized sq ds.length
      (fun i => yoyAt m2 i - yoyAt cpi i) h14 hv3 hs3 hsq1).2

/-- Counterexample for C5: on the concrete 15-row frame `c5table` — with
the abstract square root exact at every variance it is applied to and the
abstract log exact at every ratio it is applied to — the pipeline succeeds
and the persisted `z_m2_to_gdp` column has sample mean −2/3, not 0: the
ratio indicator is standardized over all 15 pre-drop rows while only the
last 3 survive the final `dropna()`. -/
theorem c5_counterexample :
    c5sqrt 1 = 1 ∧ c5sqrt 4 = 2 ∧ c5log 1 = 0 ∧
    (build_analysis_dataframe c5log c5sqrt c5table).toOption.map
        (fun t => colMean (t.getColD "z_m2_to_gdp")) =
      some (some (-2 / 3)) ∧ (-2 / 3 : ℚ) ≠ 0 := by
  with_unfolding_all decide

/-- Witness for C5 (amended): the theorem applied at the concrete frame
`c5table`. -/
theorem c5_witness :
    ∃ out, build_analysis_dataframe c5log c5sqrt
        (mkAligned c5dates c5m2 c5cpi c5gdp c5ones c5ones c5ones c5ones
          c5ones) = .ok out ∧
      colMean (out.getColD "z_m2_yoy_pct") = some 0 ∧
      colStd c5sqrt (out.getColD "z_m2_yoy_pct") = some 1 ∧
      colMean (out.getColD "z_cpi_yoy_pct") = some 0 ∧
      colStd c5sqrt (out.getColD "z_cpi_yoy_pct") = some 1 ∧
      colMean (out.getColD "z_real_m2_growth") = some 0 ∧
      colStd c5sqrt (out.getColD "z_real_m2_growth") = some 1 :=
  c5_lookback_zscores_standardized c5log c5sqrt c5dates c5m2 c5cpi c5gdp
    c5ones c5ones c5ones c5ones c5ones
    (by with_unfolding_all decide) (by with_unfolding_all decide)
    (by with_unfolding_all decide) (by with_unfolding_all decide)
    (by with_unfolding_all decide) (by with_unfolding_all decide)
    (by with_unfolding_all decide) (by with_unfolding_all decide)
    (by with_unfolding_all decide) (by with_unfolding_all decide)
    (by with_unfolding_all decide) (by with_unfolding_all decide)
    (by with_unfolding_all decide) (by with_unfolding_all decide)
    (by with_unfolding_all decide) (by with_unfolding_all decide)
    (by with_unfolding_all decide)

/-- Claim C1 (amended): on every aligned frame with at least 14 rows
that is valid for analysis — nonzero pct-change/ratio denominators,
positive asset prices and nondegenerate indicator standard deviations,
the conditions under which the real pipeline neither divides by zero nor
empties the frame — the pipeline succeeds, and the persisted output holds
exactly the columns of `analysisNames`: the four debasement indicators
raw and standardized, the three asset log returns, the cash real return,
the three spreads and the composite score, but also the raw
`fed_funds_rate` and `tips_real_yield_10y` level columns, which
`build_analysis_dataframe` never drops. -/
theorem c1_raw_rate_columns_survive (lg sq : ℚ → ℚ) (ds : List YMD)
    (m2 cpi gdp ff tips btc sp gold : List ℚ)
    (hm2 : m2.length = ds.length) (hcpi : cpi.length = ds.length)
    (hgdp : gdp.length = ds.length) (hff : ff.length = ds.length)
    (htips : tips.length = ds.length) (hbtc : btc.length = ds.length)
    (hsp : sp.length = ds.length) (hgold : gold.length = ds.length)
    (h14 : 14 ≤ ds.length)
    (hvalid : validForAnalysis sq m2 cpi gdp btc sp gold) :
    ∃ out, build_analysis_dataframe lg sq
        (mkAligned ds m2 cpi gdp ff tips btc sp gold) = .ok out ∧
      out.names = analysisNames ∧
      "fed_funds_rate" ∈ out.names ∧
      "tips_real_yield_10y" ∈ out.names := by
  have hn : ((preDrop lg sq ds m2 cpi gdp ff tips btc sp
      gold).dropna).names = analysisNames := by
    rw [names_dropna]
    rfl
  refine ⟨_, build_mkAligned_eq lg sq ds m2 cpi gdp ff tips btc sp gold
    hm2 hcpi hgdp hff htips hbtc hsp hgold h14 hvalid, hn, ?_, ?_⟩
  · rw [hn]
    decide
  · rw [hn]
    decide

/-- Outside the valid-for-analysis domain the model fails exactly like the
program: on an all-constant 14-row frame every indicator's standard
deviation is zero, so every z column is all-missing (`0.0/0.0 = NaN` in
pandas), the final `dropna()` empties the frame, and the diagnostic
`.date()` on the NaT index minimum raises. -/
theorem build_constant_frame_errors :
    build_analysis_dataframe c9log c5sqrt
      (mkAligned ((List.range' 0 14).map idxToMonthEnd)
        (List.replicate 14 100) (List.replicate 14 100)
        (List.replicate 14 1) (List.replicate 14 1) (List.replicate 14 1)
        (List.replicate 14 1) (List.replicate 14 1) (List.replicate 14 1)) =
      .error .valueErrorNaTDate := by
  with_unfolding_all rfl

/-- Counterexample for C1: on the concrete 14-row frame `c9table` the
pipeline succeeds with exactly the columns `analysisNames`, and these
include the raw rate level column `fed_funds_rate` and the raw yield
level column `tips_real_yield_10y`. -/
theorem c1_counterexample :
    (build_analysis_dataframe c9log c9sqrt c9table).toOption.map
        Table.names = some analysisNames ∧
    "fed_funds_rate" ∈ analysisNames ∧
    "tips_real_yield_10y" ∈ analysisNames := by
  with_unfolding_all decide

/-- Witness for C1 (amended): the theorem applied at the concrete frame
`c5table`. -/
theorem c1_witness :
    ∃ out, build_analysis_dataframe c5log c5sqrt
        (mkAligned c5dates c5m2 c5cpi c5gdp c5ones c5ones c5ones c5ones
          c5ones) = .ok out ∧
      out.names = analysisNames ∧
      "fed_funds_rate" ∈ out.names ∧
      "tips_real_yield_10y" ∈ out.names :=
  c1_raw_rate_columns_survive c5log c5sqrt c5dates c5m2 c5cpi c5gdp
    c5ones c5ones c5ones c5ones c5ones
    (by with_unfolding_all decide) (by with_unfolding_all decide)
    (by with_unfolding_all decide) (by with_unfolding_all decide)
    (by with_unfolding_all decide) (by with_unfolding_all decide)
    (by with_unfolding_all decide) (by with_unfolding_all decide)
    (by with_unfolding_all decide) (by with_unfolding_all decide)

/-- Witness for C7 (amended): both failure modes at concrete inputs. -/
theorem c7_witness :
    align_all_series_to_monthly c3slopes w2m2 w2cpi c7gdp w2daily w2daily
      w2daily w2daily w2daily = .error .valueErrorSpline ∧
    align_all_series_to_monthly c3slopes w2m2 w2cpi w2gdp w2daily w2daily
      [] w2daily w2daily = .error .valueErrorNaTDate :=
  ⟨c7_insufficient_data_fails_with_valueerror.1 c3slopes w2m2 w2cpi c7gdp
      w2daily w2daily w2daily w2daily w2daily (by simp [cleanPairs, c7gdp]),
   c7_insufficient_data_fails_with_valueerror.2 c3slopes w2m2 w2cpi w2gdp
      w2daily w2daily w2daily w2daily (by simp [cleanPairs, w2gdp])⟩

end WealthPres
